import Mathlib

/-!
Verification of the grasp-simulation core in src/vgn/simulation.py.

The physics engine (pybullet), the spatial-algebra library
(robot_helpers.spatial) and the random generator (numpy) are external
collaborators: they are embedded as abstract operation records, while every
piece of control flow, every constant and every data access of the Python
source is translated literally. Machine reals are modelled by rationals.
-/

set_option linter.unusedVariables false

/-- A 3-component numeric vector (numpy length-3 arrays: positions,
Euler angles, perturbation bounds). -/
structure V3 where
  x : ℚ
  y : ℚ
  z : ℚ
deriving DecidableEq

def V3.add (a b : V3) : V3 := ⟨a.x + b.x, a.y + b.y, a.z + b.z⟩

def V3.sub (a b : V3) : V3 := ⟨a.x - b.x, a.y - b.y, a.z - b.z⟩

def V3.neg (a : V3) : V3 := ⟨-a.x, -a.y, -a.z⟩

/-- The injected seeded generator (a numpy Generator): an abstract stream of
unit draws, consumed one call at a time; `pos` counts the calls made so far.
Each call may read up to three stream components (index `j`).
numpy `uniform(lo, hi)` returns `lo + u * (hi - lo)` with `u` a unit draw. -/
structure Rng where
  stream : ℕ → ℕ → ℚ
  pos : ℕ

def Rng.advance (r : Rng) : Rng := ⟨r.stream, r.pos + 1⟩

def Rng.advanceBy (r : Rng) (k : ℕ) : Rng := ⟨r.stream, r.pos + k⟩

/-- `rng.uniform(lo, hi)` with 3-vector bounds (one call, three components). -/
def Rng.uniform3 (r : Rng) (lo hi : V3) : V3 × Rng :=
  (⟨lo.x + r.stream r.pos 0 * (hi.x - lo.x),
    lo.y + r.stream r.pos 1 * (hi.y - lo.y),
    lo.z + r.stream r.pos 2 * (hi.z - lo.z)⟩, r.advance)

/-- `rng.uniform(lo, hi)` with scalar bounds (one call, one component). -/
def Rng.uniform1 (r : Rng) (lo hi : ℚ) : ℚ × Rng :=
  (lo + r.stream r.pos 0 * (hi - lo), r.advance)

/-- `rng.uniform(lo, hi, 2)` (one call, two components). -/
def Rng.uniform2 (r : Rng) (lo hi : ℚ) : (ℚ × ℚ) × Rng :=
  ((lo + r.stream r.pos 0 * (hi - lo), lo + r.stream r.pos 1 * (hi - lo)), r.advance)

/-- The contract of the external generator: unit draws lie in [0, 1]. -/
def Rng.unitInterval (r : Rng) : Prop :=
  ∀ n j, 0 ≤ r.stream n j ∧ r.stream n j ≤ 1

/-- Componentwise interval membership for 3-vectors. -/
def V3.between (lo v hi : V3) : Prop :=
  lo.x ≤ v.x ∧ v.x ≤ hi.x ∧ lo.y ≤ v.y ∧ v.y ≤ hi.y ∧ lo.z ≤ v.z ∧ v.z ≤ hi.z

/-- One element of `p.getContactPoints(...)`: only the fields the code reads.
Index 2 of the pybullet tuple is `bodyUniqueIdB`, the other body involved. -/
structure ContactPoint where
  bodyA : ℕ
  bodyB : ℕ
deriving DecidableEq

/-- `PandaGripper.max_width = 0.08` (simulation.py line 50). -/
def PandaGripper.max_width : ℚ := 8 / 100

/-- Abstract operations of the external spatial library
(robot_helpers.spatial): `Rotation.from_euler("xyz", v)`, the `Transform`
constructor, and transform composition `*`. -/
structure SpatialOps (Pose Rot : Type) where
  fromEulerXYZ : V3 → Rot
  transform : Rot → V3 → Pose
  comp : Pose → Pose → Pose

/-- `vgn.grasp.ParallelJawGrasp`: a 6-DoF pose plus a finger width. -/
structure ParallelJawGrasp (Pose : Type) where
  pose : Pose
  width : ℚ

/-- The simulator operations that `PhysicsMetric` drives, abstract over the
engine state `σ`: `gripper.reset` (which includes its trailing `sim.step`),
`gripper.close_fingers`, `gripper.lift`, `sim.restore_state`, and the live
queries `gripper.contacts` and `gripper.width`. -/
structure GripEngine (σ Pose : Type) where
  applyReset : Pose → ℚ → σ → σ
  applyClose : σ → σ
  applyLift : σ → σ
  applyRestore : σ → σ
  contacts : σ → List ContactPoint
  width : σ → ℚ

/-- Trace entry: one gripper/session command issued by a quality evaluation,
recorded in issue order. -/
inductive GraspAction (Pose : Type) where
  | reset (pose : Pose) (width : ℚ)
  | close
  | lift
  | restore
deriving DecidableEq

section Metrics

variable {σ Pose Rot : Type}

/-- `PhysicsMetric.quality` (simulation.py lines 156-164), instrumented with
the list of commands it issues. Returns ((quality, metadata), final engine
state, command trace). The metadata dict is `none` for `{}` and
`some uid` for `{"object_uid": contacts[0][2]}`. -/
def PhysicsMetric.quality (E : GripEngine σ Pose) (grasp : ParallelJawGrasp Pose)
    (s : σ) : (ℚ × Option ℕ) × σ × List (GraspAction Pose) :=
  let s1 := E.applyReset grasp.pose grasp.width s
  if E.contacts s1 = [] then
    let s3 := E.applyLift (E.applyClose s1)
    let cs := E.contacts s3
    if h : (1 / 10 : ℚ) * PandaGripper.max_width < E.width s3 ∧ cs ≠ [] then
      ((1, some (cs.head h.2).bodyB), s3,
        [.reset grasp.pose grasp.width, .close, .lift])
    else
      ((0, none), s3, [.reset grasp.pose grasp.width, .close, .lift])
  else
    ((0, none), s1, [.reset grasp.pose grasp.width])

/-- The configuration record of `RobustPhysicsMetric.__init__`:
`uncertainty.rpy`, `uncertainty.xyz`, `sample_count`. -/
structure RobustCfg where
  xyz : V3
  rpy : V3
  sample_count : ℕ

/-- The loop of `RobustPhysicsMetric.__call__` (simulation.py lines 175-184)
with the remaining iteration count as the recursion measure; `pose0`/`width0`
are the fields of the ORIGINAL candidate grasp, destructured before the loop
(line 176), so every perturbation is composed with the original pose. -/
def RobustPhysicsMetric.loop (E : GripEngine σ Pose) (O : SpatialOps Pose Rot)
    (cfg : RobustCfg) (pose0 : Pose) (width0 : ℚ) :
    ℕ → Rng → σ → (ℚ × Option ℕ) × σ × Rng × List (GraspAction Pose)
  | 0, r, s => ((1, none), s, r, [])
  | n + 1, r, s =>
    let d1 := r.uniform3 cfg.rpy.neg cfg.rpy
    let d2 := d1.2.uniform3 cfg.xyz.neg cfg.xyz
    let grasp : ParallelJawGrasp Pose :=
      ⟨O.comp pose0 (O.transform (O.fromEulerXYZ d1.1) d2.1), width0⟩
    let s1 := E.applyRestore s
    let q := PhysicsMetric.quality E grasp s1
    if q.1.1 = 0 then ((0, none), q.2.1, d2.2, .restore :: q.2.2)
    else
      let rest := RobustPhysicsMetric.loop E O cfg pose0 width0 n d2.2 q.2.1
      (rest.1, rest.2.1, rest.2.2.1, (.restore :: q.2.2) ++ rest.2.2.2)

/-- `RobustPhysicsMetric.__call__` itself. -/
def RobustPhysicsMetric.call (E : GripEngine σ Pose) (O : SpatialOps Pose Rot)
    (cfg : RobustCfg) (grasp : ParallelJawGrasp Pose) (r : Rng) (s : σ) :
    (ℚ × Option ℕ) × σ × Rng × List (GraspAction Pose) :=
  RobustPhysicsMetric.loop E O cfg grasp.pose grasp.width cfg.sample_count r s

/-- Perturbation drawn for trial `i`: rng calls `2*i` (rpy) and `2*i+1` (xyz)
counted from the rng state at entry to `__call__`. -/
def RobustPhysicsMetric.trialDraw (cfg : RobustCfg) (r : Rng) (i : ℕ) : V3 × V3 :=
  let ri := r.advanceBy (2 * i)
  let d1 := ri.uniform3 cfg.rpy.neg cfg.rpy
  let d2 := d1.2.uniform3 cfg.xyz.neg cfg.xyz
  (d1.1, d2.1)

/-- The perturbed grasp evaluated in trial `i`: the sampled perturbation
composed with the ORIGINAL candidate pose, at the original width. -/
def RobustPhysicsMetric.trialGrasp (O : SpatialOps Pose Rot) (cfg : RobustCfg)
    (pose0 : Pose) (width0 : ℚ) (r : Rng) (i : ℕ) : ParallelJawGrasp Pose :=
  ⟨O.comp pose0 (O.transform (O.fromEulerXYZ (RobustPhysicsMetric.trialDraw cfg r i).1)
      (RobustPhysicsMetric.trialDraw cfg r i).2), width0⟩

/-- Engine state before trial `i`, assuming trials `0 .. i-1` all ran:
`restore_state` is applied before every single trial. -/
def RobustPhysicsMetric.trialState (E : GripEngine σ Pose) (O : SpatialOps Pose Rot)
    (cfg : RobustCfg) (pose0 : Pose) (width0 : ℚ) (r : Rng) (s0 : σ) : ℕ → σ
  | 0 => s0
  | i + 1 =>
    (PhysicsMetric.quality E (RobustPhysicsMetric.trialGrasp O cfg pose0 width0 r i)
      (E.applyRestore
        (RobustPhysicsMetric.trialState E O cfg pose0 width0 r s0 i))).2.1

/-- Quality value produced by trial `i` (assuming all earlier trials ran). -/
def RobustPhysicsMetric.trialValue (E : GripEngine σ Pose) (O : SpatialOps Pose Rot)
    (cfg : RobustCfg) (pose0 : Pose) (width0 : ℚ) (r : Rng) (s0 : σ) (i : ℕ) : ℚ :=
  (PhysicsMetric.quality E (RobustPhysicsMetric.trialGrasp O cfg pose0 width0 r i)
    (E.applyRestore (RobustPhysicsMetric.trialState E O cfg pose0 width0 r s0 i))).1.1

/-- Command trace of trial `i`: a restore, then the quality-test commands. -/
def RobustPhysicsMetric.trialTrace (E : GripEngine σ Pose) (O : SpatialOps Pose Rot)
    (cfg : RobustCfg) (pose0 : Pose) (width0 : ℚ) (r : Rng) (s0 : σ) (i : ℕ) :
    List (GraspAction Pose) :=
  .restore ::
    (PhysicsMetric.quality E (RobustPhysicsMetric.trialGrasp O cfg pose0 width0 r i)
      (E.applyRestore (RobustPhysicsMetric.trialState E O cfg pose0 width0 r s0 i))).2.2

end Metrics

/-- The engine side of snapshotting: `p.saveState()` allocates an id for the
current dynamic state (stored engine-side) and `p.restoreState(stateId)`
rewinds to a stored id. Abstract over the engine state `ε`. -/
structure SessEngine (ε : Type) where
  saveState : ε → ℕ × ε
  restoreState : ℕ → ε → ε

/-- `GraspSim` as far as snapshotting is concerned (simulation.py lines
35-39): the engine state plus the `snapshot_id` attribute. `none` models the
attribute not having been assigned yet; reading it then raises
AttributeError in Python. -/
structure GraspSimSt (ε : Type) where
  engine : ε
  snapshot_id : Option ℕ

/-- `GraspSim.save_state`: `self.snapshot_id = p.saveState()`; the previous
handle, if any, is overwritten. -/
def GraspSim.save_state {ε : Type} (E : SessEngine ε) (s : GraspSimSt ε) :
    GraspSimSt ε :=
  ⟨(E.saveState s.engine).2, some (E.saveState s.engine).1⟩

/-- `GraspSim.restore_state`: `p.restoreState(stateId=self.snapshot_id)`;
fails (AttributeError) when `save_state` was never called. -/
def GraspSim.restore_state {ε : Type} (E : SessEngine ε) (s : GraspSimSt ε) :
    Except String (GraspSimSt ε) :=
  match s.snapshot_id with
  | none => .error "AttributeError: GraspSim object has no snapshot_id"
  | some sid => .ok ⟨E.restoreState sid s.engine, some sid⟩

/-- One `changeConstraint` command issued during a lift: the commanded mount
constraint target frame (`update_fixed_joint`). -/
structure LiftCmd (Rot : Type) where
  ori : Rot
  target : V3
deriving DecidableEq

/-- `PandaGripper.lift` (simulation.py lines 121-128): the sequence of mount
constraint targets commanded across the loop `for i in range(60)`, computed
from the base pose `(pos, ori)` read ONCE at entry
(`p.getBasePositionAndOrientation`). Each command is followed by exactly one
`sim.step()`, so the list length is also the number of steps taken.
The commanded target is `pos + [0, 0, i * 1.0 / 60.0 * 0.1]`. -/
def PandaGripper.liftCommands (Rot : Type) (pos : V3) (ori : Rot) :
    List (LiftCmd Rot) :=
  (List.range 60).map fun i : ℕ =>
    ⟨ori, V3.add pos ⟨0, 0, (i : ℚ) * 1 / 60 * (1 / 10)⟩⟩

/-- The slice of gripper state written by `reset`: the base pose and the two
finger joint positions (`p.resetJointState` on joints 0 and 1). -/
structure GripperSt (Pose : Type) where
  base : Pose
  joint0 : ℚ
  joint1 : ℚ

/-- `PandaGripper.reset` (simulation.py lines 90-100) before its trailing
`sim.step()`: `pose = pose * self.T_ee_com`, teleport the base there,
retarget the mount constraint there, and write `0.5 * width` into each
finger joint. The source contains no conditional: the commanded width is
used verbatim, whatever its value. `T_ee_com` is the fixed eef-to-COM
offset transform of line 52, kept abstract since only its role in the
composition matters. -/
def PandaGripper.resetWrite {Pose Rot : Type} (O : SpatialOps Pose Rot)
    (T_ee_com : Pose) (pose : Pose) (width : ℚ) (g : GripperSt Pose) :
    GripperSt Pose :=
  { base := O.comp pose T_ee_com, joint0 := 1 / 2 * width, joint1 := 1 / 2 * width }

/-- The full `reset`: the state writes followed by one `sim.step()`, whose
physical effect is the abstract dynamics `stepG`. -/
def PandaGripper.reset {Pose Rot : Type} (O : SpatialOps Pose Rot)
    (T_ee_com : Pose) (stepG : GripperSt Pose → GripperSt Pose) (pose : Pose)
    (width : ℚ) (g : GripperSt Pose) : GripperSt Pose :=
  stepG (PandaGripper.resetWrite O T_ee_com pose width g)

/-- Abstract rotation operations of the external spatial library as the scene
code uses them: composition, action on vectors, `Rotation.from_rotvec` about
the z axis, and the identity. A rigid transform is a pair
(rotation, translation); composition follows
`(R1, t1) * (R2, t2) = (R1 R2, R1 t2 + t1)`. -/
structure RotOps (Rot : Type) where
  mul : Rot → Rot → Rot
  act : Rot → V3 → V3
  rotvecZ : ℚ → Rot
  one : Rot

/-- Transform composition `a * b` of the external library. -/
def RotOps.compRT {Rot : Type} (RO : RotOps Rot) (a b : Rot × V3) : Rot × V3 :=
  (RO.mul a.1 b.1, V3.add (RO.act a.1 b.2) a.2)

/-- The pybullet world as the scene code observes it: the set of live body
ids, the id the next `loadURDF` returns (pybullet allocates increasing ids),
each body's base position and orientation, and the number of
`stepSimulation` calls made so far. -/
structure ScnWorld (Rot : Type) where
  bodies : Finset ℕ
  nextUid : ℕ
  pos : ℕ → V3
  ori : ℕ → Rot
  stepCount : ℕ

/-- The engine dynamics and queries the scene code consumes, abstract: the
effect of one `stepSimulation` on poses, the per-body contact query
`p.getContactPoints(uid)` reduced to its truthiness, and `p.getAABB`. -/
structure SceneDyn (Rot : Type) where
  evolvePos : ScnWorld Rot → ℕ → V3
  evolveOri : ScnWorld Rot → ℕ → Rot
  hasContacts : ScnWorld Rot → ℕ → Bool
  aabb : ScnWorld Rot → ℕ → V3 × V3

/-- One `p.stepSimulation()`: poses move under the abstract dynamics, the
body set and allocator are untouched, the step counter advances. -/
def ScnWorld.step {Rot : Type} (D : SceneDyn Rot) (w : ScnWorld Rot) :
    ScnWorld Rot :=
  { w with pos := D.evolvePos w, ori := D.evolveOri w,
           stepCount := w.stepCount + 1 }

/-- `load_urdf` (simulation.py lines 187-189): `p.loadURDF` at the given
pose; pybullet returns a fresh body id. The scaling argument only affects
geometry, which lives inside the abstract dynamics. -/
def ScnWorld.loadBody {Rot : Type} (w : ScnWorld Rot) (rot : Rot) (t : V3) :
    ScnWorld Rot × ℕ :=
  (⟨insert w.nextUid w.bodies, w.nextUid + 1,
    fun u => if u = w.nextUid then t else w.pos u,
    fun u => if u = w.nextUid then rot else w.ori u,
    w.stepCount⟩, w.nextUid)

/-- `p.removeBody(uid)`. -/
def ScnWorld.removeBody {Rot : Type} (w : ScnWorld Rot) (uid : ℕ) :
    ScnWorld Rot :=
  { w with bodies := w.bodies.erase uid }

/-- `p.resetBasePositionAndOrientation(uid, ...)`. -/
def ScnWorld.resetBasePose {Rot : Type} (w : ScnWorld Rot) (uid : ℕ)
    (rot : Rot) (t : V3) : ScnWorld Rot :=
  { w with pos := fun u => if u = uid then t else w.pos u,
           ori := fun u => if u = uid then rot else w.ori u }

/-- The Python-side `Scene` state (simulation.py lines 192-205): the origin
transform, the footprint size (0.3 at construction), the support id and the
managed object id list, alongside the engine world. -/
structure SceneSt (Rot : Type) where
  world : ScnWorld Rot
  origin : Rot × V3
  size : ℚ
  support_uid : ℕ
  object_uids : List ℕ

section SceneOps

variable {Rot : Type}

/-- `Scene.add_object` (lines 217-221): `load_urdf` then append the fresh id
to `object_uids` (the `changeDynamics` call only tunes friction inside the
engine). Returns the new scene and the id. -/
def Scene.add_object (sc : SceneSt Rot) (rot : Rot) (t : V3) : SceneSt Rot × ℕ :=
  let wl := sc.world.loadBody rot t
  ({ sc with world := wl.1, object_uids := sc.object_uids ++ [wl.2] }, wl.2)

/-- `Scene.remove_object` (lines 226-228): `p.removeBody(uid)` and
`object_uids.remove(uid)` (first occurrence) in the same operation. -/
def Scene.remove_object (sc : SceneSt Rot) (uid : ℕ) : SceneSt Rot :=
  { sc with world := sc.world.removeBody uid,
            object_uids := sc.object_uids.erase uid }

/-- `Scene.remove_all_objects` (lines 230-232): iterate over a COPY of the
list (`list(self.object_uids)`) and remove each element. -/
def Scene.remove_all_objects (sc : SceneSt Rot) : SceneSt Rot :=
  sc.object_uids.foldl Scene.remove_object sc

/-- `Scene.wait_for_objects_to_rest` (lines 243-245): exactly 60 sim steps. -/
def Scene.wait_for_objects_to_rest (D : SceneDyn Rot) (sc : SceneSt Rot) :
    SceneSt Rot :=
  { sc with world := (ScnWorld.step D)^[60] sc.world }

/-- The containment test of `remove_outside_objects` on one body position:
`xyz = position - origin.translation`, outside when `np.any(xyz < 0.0) or
np.any(xyz > self.size)`. Note that ALL THREE coordinates take part. -/
def Scene.outsideTest (origin_t : V3) (size : ℚ) (q : V3) : Bool :=
  let d := V3.sub q origin_t
  decide (d.x < 0 ∨ d.y < 0 ∨ d.z < 0 ∨ size < d.x ∨ size < d.y ∨ size < d.z)

/-- The containment predicate as the specification words it: only the
HORIZONTAL coordinates x and y take part. Written from the spec text, for
comparison against the code. -/
def Scene.specHorizontalOutside (origin_t : V3) (size : ℚ) (q : V3) : Bool :=
  let d := V3.sub q origin_t
  decide (d.x < 0 ∨ d.y < 0 ∨ size < d.x ∨ size < d.y)

/-- The `for uid in self.object_uids` loop of `remove_outside_objects`
(lines 237-241), which `remove_object` mutates WHILE it runs. CPython list
iteration keeps an integer cursor: each pass reads the element at the cursor
of the CURRENT list, advances the cursor, and runs the body. `fuel` bounds
the number of passes; the list never grows, so its initial length is enough. -/
def Scene.removeOutsideLoop : ℕ → ℕ → SceneSt Rot → SceneSt Rot
  | 0, _, sc => sc
  | fuel + 1, i, sc =>
    match (sc.object_uids.drop i).head? with
    | none => sc
    | some uid =>
      if Scene.outsideTest sc.origin.2 sc.size (sc.world.pos uid) then
        Scene.removeOutsideLoop fuel (i + 1) (Scene.remove_object sc uid)
      else
        Scene.removeOutsideLoop fuel (i + 1) sc

/-- `Scene.remove_outside_objects` (lines 234-241): settle for 60 steps,
then run the (mutating) removal pass. -/
def Scene.remove_outside_objects (D : SceneDyn Rot) (sc : SceneSt Rot) :
    SceneSt Rot :=
  let sc1 := Scene.wait_for_objects_to_rest D sc
  Scene.removeOutsideLoop sc1.object_uids.length 0 sc1

/-- Reference recursion for the net effect of one CPython removal pass: a
removed element makes its immediate successor be kept without being checked
(the successor slides into the slot the cursor has already passed). -/
def skipFilter (f : ℕ → Bool) : List ℕ → List ℕ
  | [] => []
  | [a] => if f a then [] else [a]
  | a :: b :: l => if f a then b :: skipFilter f l else a :: skipFilter f (b :: l)

/-- The data-model invariant of `Scene`: every managed object handle is a
live body of the session, handles are distinct, and all sit below the
allocator cursor (pybullet hands out fresh increasing ids). -/
def SceneInv (sc : SceneSt Rot) : Prop :=
  (∀ uid ∈ sc.object_uids, uid ∈ sc.world.bodies) ∧
  sc.object_uids.Nodup ∧
  (∀ uid ∈ sc.object_uids, uid < sc.world.nextUid)

/-- The per-object attempt loop of `PackedScene.generate` (lines 259-275).
`saved` is the scene right after `state_id = p.saveState()`: a
`p.restoreState(state_id)` puts the engine exactly back there, and the
Python-side fields do not change during attempts, so every attempt starts
from `saved`. `fuel` is the remaining attempt count; `pi2` stands for the
constant `2 * np.pi` (no property proved below depends on its value).
Exhausting all attempts lands in the `else` of the `for`, which removes the
object. -/
def PackedScene.attemptLoop (D : SceneDyn Rot) (RO : RotOps Rot) (pi2 : ℚ)
    (saved : SceneSt Rot) (uid : ℕ) (z_offset : ℚ) :
    ℕ → Rng → SceneSt Rot × Rng
  | 0, r => (Scene.remove_object saved uid, r)
  | fuel + 1, r =>
    let dyaw := r.uniform1 0 pi2
    let dxy := dyaw.2.uniform2 (2 / 10) (8 / 10)
    let local_ori := RO.rotvecZ dyaw.1
    let local_pos : V3 := ⟨dxy.1.1 * saved.size, dxy.1.2 * saved.size, z_offset⟩
    let pose := RO.compRT saved.origin (local_ori, local_pos)
    let w1 := ScnWorld.step D (saved.world.resetBasePose uid pose.1 pose.2)
    if D.hasContacts w1 uid then
      PackedScene.attemptLoop D RO pi2 saved uid z_offset fuel dxy.2
    else
      ({ saved with world := w1 }, dxy.2)

/-- Per-object processing of `PackedScene.generate` (lines 256-275): add the
object at `Transform.identity`, read its AABB to get
`z_offset = 0.5 * (upper_z - lower_z) + 0.002`, save the engine snapshot,
then run the attempt loop. -/
def PackedScene.placeOneObject (D : SceneDyn Rot) (RO : RotOps Rot) (pi2 : ℚ)
    (max_attempts : ℕ) (sc : SceneSt Rot) (r : Rng) : SceneSt Rot × Rng :=
  let au := Scene.add_object sc RO.one ⟨0, 0, 0⟩
  let ab := D.aabb au.1.world au.2
  let z_offset := 1 / 2 * (ab.2.z - ab.1.z) + 2 / 1000
  PackedScene.attemptLoop D RO pi2 au.1 au.2 z_offset max_attempts r

/-- `PackedScene.generate` (lines 249-276): set the origin, add the support
at `origin * T([size/2, size/2, 0])`, process the object specs in turn, then
`remove_outside_objects`. The urdf/scaling of each spec influences outcomes
only through the abstract dynamics, so specs are counted. -/
def PackedScene.generate (D : SceneDyn Rot) (RO : RotOps Rot) (pi2 : ℚ)
    (origin : Rot × V3) (nSpecs max_attempts : ℕ) (sc : SceneSt Rot) (r : Rng) :
    SceneSt Rot × Rng :=
  let center := RO.compRT origin (RO.one, ⟨1 / 2 * sc.size, 1 / 2 * sc.size, 0⟩)
  let sc1 : SceneSt Rot := { sc with origin := origin }
  let ws := sc1.world.loadBody center.1 center.2
  let sc2 : SceneSt Rot := { sc1 with world := ws.1, support_uid := ws.2 }
  let res := (List.range nSpecs).foldl
    (fun acc _ => PackedScene.placeOneObject D RO pi2 max_attempts acc.1 acc.2)
    (sc2, r)
  (Scene.remove_outside_objects D res.1, res.2)

/-- The yaw draw of attempt `k`: rng call `2*k`, `uniform(0, 2*pi)`. -/
def PackedScene.attemptYaw (pi2 : ℚ) (r : Rng) (k : ℕ) : ℚ :=
  ((r.advanceBy (2 * k)).uniform1 0 pi2).1

/-- The xy offset draw of attempt `k`: rng call `2*k + 1`,
`uniform(0.2, 0.8, 2)`. -/
def PackedScene.attemptOffsets (r : Rng) (k : ℕ) : ℚ × ℚ :=
  ((r.advanceBy (2 * k)).advance.uniform2 (2 / 10) (8 / 10)).1

/-- The world an attempt `k` produces: place at
`origin * Transform(rotvec_z(yaw), [offsets * size, z_offset])` from the
saved snapshot, then one step. -/
def PackedScene.attemptWorld (D : SceneDyn Rot) (RO : RotOps Rot) (pi2 : ℚ)
    (saved : SceneSt Rot) (uid : ℕ) (z_offset : ℚ) (r : Rng) (k : ℕ) :
    ScnWorld Rot :=
  let yaw := PackedScene.attemptYaw pi2 r k
  let off := PackedScene.attemptOffsets r k
  let pose := RO.compRT saved.origin
    (RO.rotvecZ yaw, ⟨off.1 * saved.size, off.2 * saved.size, z_offset⟩)
  ScnWorld.step D (saved.world.resetBasePose uid pose.1 pose.2)

/-- The contact check outcome of attempt `k`. -/
def PackedScene.attemptHasContact (D : SceneDyn Rot) (RO : RotOps Rot)
    (pi2 : ℚ) (saved : SceneSt Rot) (uid : ℕ) (z_offset : ℚ) (r : Rng)
    (k : ℕ) : Bool :=
  D.hasContacts (PackedScene.attemptWorld D RO pi2 saved uid z_offset r k) uid

end SceneOps

/-! Concrete instances used to evaluate the theorems on closed inputs. -/

/-- Tiny concrete spatial structure over natural-number codes. -/
def ONat : SpatialOps ℕ ℕ :=
  { fromEulerXYZ := fun _ => 0, transform := fun _ _ => 0,
    comp := fun a b => a + b }

/-- A concrete engine in which the gripper is in contact right after every
reset: every Physics quality test then fails at the initial check. -/
def EContact : GripEngine ℕ ℕ :=
  { applyReset := fun _ _ s => s + 1, applyClose := fun s => s + 1,
    applyLift := fun s => s + 1, applyRestore := fun s => s,
    contacts := fun _ => [⟨0, 7⟩], width := fun _ => 0 }

/-- A concrete engine with no contact after a reset (state 10) but a firm
hold after closing and lifting: every Physics quality test succeeds and
reports object id 3. -/
def ESucc : GripEngine ℕ ℕ :=
  { applyReset := fun _ _ _ => 10, applyClose := fun s => s + 1,
    applyLift := fun s => s + 1, applyRestore := fun _ => 5,
    contacts := fun s => if s = 10 then [] else [⟨0, 3⟩],
    width := fun _ => 1 / 100 }

/-- A concrete rng whose unit draws are all zero. -/
def RZero : Rng := ⟨fun _ _ => 0, 0⟩

/-- A concrete grasp over the natural-number pose codes. -/
def gW : ParallelJawGrasp ℕ := ⟨0, 2 / 100⟩

/-- A concrete robustness configuration with two samples. -/
def CfgW : RobustCfg := ⟨⟨0, 0, 0⟩, ⟨0, 0, 0⟩, 2⟩

/-- A concrete session engine: the state is a counter, `saveState` hands out
the counter value as the id. -/
def ESess : SessEngine ℕ :=
  { saveState := fun e => (e, e + 1), restoreState := fun sid _ => sid }

/-- Trivial rotation structure on `Unit`. -/
def ROUnit : RotOps Unit :=
  { mul := fun _ _ => (), act := fun _ v => v, rotvecZ := fun _ => (),
    one := () }

/-- Frozen dynamics: poses never move, nothing is ever in contact. -/
def DFreeze : SceneDyn Unit :=
  { evolvePos := fun w => w.pos, evolveOri := fun w => w.ori,
    hasContacts := fun _ _ => false, aabb := fun _ _ => (⟨0, 0, 0⟩, ⟨0, 0, 0⟩) }

/-- Dynamics in which every body is always in contact. -/
def DContact : SceneDyn Unit :=
  { evolvePos := fun w => w.pos, evolveOri := fun w => w.ori,
    hasContacts := fun _ _ => true, aabb := fun _ _ => (⟨0, 0, 0⟩, ⟨0, 0, 0⟩) }

/-- Concrete scene for the C5 counterexample: objects 0 and 1 sit outside
the footprint horizontally, object 2 is inside horizontally but high above
the footprint (z = 1). -/
def scC5 : SceneSt Unit :=
  { world :=
      { bodies := {0, 1, 2}, nextUid := 3,
        pos := fun u =>
          if u = 0 then ⟨-1, 1 / 10, 1 / 10⟩
          else if u = 1 then ⟨1, 1 / 10, 1 / 10⟩
          else if u = 2 then ⟨1 / 10, 1 / 10, 1⟩ else ⟨0, 0, 0⟩,
        ori := fun _ => (), stepCount := 0 },
    origin := ((), ⟨0, 0, 0⟩), size := 3 / 10, support_uid := 100,
    object_uids := [0, 1, 2] }

/-- A concrete empty scene. -/
def scEmpty : SceneSt Unit :=
  { world := { bodies := ∅, nextUid := 0, pos := fun _ => ⟨0, 0, 0⟩,
               ori := fun _ => (), stepCount := 0 },
    origin := ((), ⟨0, 0, 0⟩), size := 3 / 10, support_uid := 0,
    object_uids := [] }

/-- The engine state one trial leaves behind: the post-state of the quality
test run on the trial-0 grasp of `r` after a restore. `trialState (i+1)`
unfolds to `trialNext` of the shifted rng and state. -/
def RobustPhysicsMetric.trialNext {σ Pose Rot : Type} (E : GripEngine σ Pose)
    (O : SpatialOps Pose Rot) (cfg : RobustCfg) (pose0 : Pose) (width0 : ℚ)
    (r : Rng) (s : σ) : σ :=
  (PhysicsMetric.quality E (RobustPhysicsMetric.trialGrasp O cfg pose0 width0 r 0)
    (E.applyRestore s)).2.1

/-! ### Helper lemmas -/

theorem Rng.advanceBy_zero (r : Rng) : r.advanceBy 0 = r := by
  cases r; simp [Rng.advanceBy]

theorem Rng.advance_advance (r : Rng) : r.advance.advance = r.advanceBy 2 := by
  cases r; simp [Rng.advance, Rng.advanceBy]

theorem Rng.advanceBy_advanceBy (r : Rng) (a b : ℕ) :
    (r.advanceBy a).advanceBy b = r.advanceBy (a + b) := by
  cases r; simp [Rng.advanceBy, Nat.add_assoc]

section MetricLemmas

variable {σ Pose Rot : Type}

theorem PhysicsMetric.quality_of_contact (E : GripEngine σ Pose)
    (g : ParallelJawGrasp Pose) (s : σ)
    (h : E.contacts (E.applyReset g.pose g.width s) ≠ []) :
    PhysicsMetric.quality E g s
      = ((0, none), E.applyReset g.pose g.width s, [.reset g.pose g.width]) := by
  simp only [PhysicsMetric.quality]
  rw [if_neg h]

theorem PhysicsMetric.quality_of_free_success (E : GripEngine σ Pose)
    (g : ParallelJawGrasp Pose) (s : σ)
    (h0 : E.contacts (E.applyReset g.pose g.width s) = [])
    (h1 : (1 / 10 : ℚ) * PandaGripper.max_width
      < E.width (E.applyLift (E.applyClose (E.applyReset g.pose g.width s))))
    (h2 : E.contacts (E.applyLift (E.applyClose (E.applyReset g.pose g.width s))) ≠ []) :
    PhysicsMetric.quality E g s
      = ((1, (E.contacts (E.applyLift (E.applyClose
            (E.applyReset g.pose g.width s)))).head?.map ContactPoint.bodyB),
         E.applyLift (E.applyClose (E.applyReset g.pose g.width s)),
         [.reset g.pose g.width, .close, .lift]) := by
  simp only [PhysicsMetric.quality]
  rw [if_pos h0, dif_pos ⟨h1, h2⟩, List.head?_eq_head h2]
  rfl

theorem PhysicsMetric.quality_of_free_fail (E : GripEngine σ Pose)
    (g : ParallelJawGrasp Pose) (s : σ)
    (h0 : E.contacts (E.applyReset g.pose g.width s) = [])
    (h1 : ¬((1 / 10 : ℚ) * PandaGripper.max_width
        < E.width (E.applyLift (E.applyClose (E.applyReset g.pose g.width s)))
      ∧ E.contacts (E.applyLift (E.applyClose (E.applyReset g.pose g.width s))) ≠ [])) :
    PhysicsMetric.quality E g s
      = ((0, none), E.applyLift (E.applyClose (E.applyReset g.pose g.width s)),
         [.reset g.pose g.width, .close, .lift]) := by
  simp only [PhysicsMetric.quality]
  rw [if_pos h0, dif_neg h1]

theorem PhysicsMetric.quality_value_cases (E : GripEngine σ Pose)
    (g : ParallelJawGrasp Pose) (s : σ) :
    (PhysicsMetric.quality E g s).1.1 = 0 ∨ (PhysicsMetric.quality E g s).1.1 = 1 := by
  by_cases h : E.contacts (E.applyReset g.pose g.width s) = []
  · by_cases h1 : (1 / 10 : ℚ) * PandaGripper.max_width
        < E.width (E.applyLift (E.applyClose (E.applyReset g.pose g.width s)))
      ∧ E.contacts (E.applyLift (E.applyClose (E.applyReset g.pose g.width s))) ≠ []
    · rw [PhysicsMetric.quality_of_free_success E g s h h1.1 h1.2]; right; rfl
    · rw [PhysicsMetric.quality_of_free_fail E g s h h1]; left; rfl
  · rw [PhysicsMetric.quality_of_contact E g s h]; left; rfl

end MetricLemmas

section ClaimC1

variable {σ Pose : Type}

/-- C1: for every grasp, the Physics quality evaluation first resets the
gripper to the grasp pose and width; if the gripper is in contact with
anything at that pose it returns quality 0 with empty metadata without
closing or lifting (the command trace stops at the reset); otherwise it
closes the fingers, lifts, and returns quality 1 with metadata carrying the
contacted object id exactly when the final jaw width exceeds 10 percent of
the maximum open width and at least one contact point remains after
lifting, and quality 0 with empty metadata in every other case. -/
theorem claim_C1_physics_quality (E : GripEngine σ Pose)
    (g : ParallelJawGrasp Pose) (s : σ) :
    (E.contacts (E.applyReset g.pose g.width s) ≠ [] →
      PhysicsMetric.quality E g s
        = ((0, none), E.applyReset g.pose g.width s, [.reset g.pose g.width])) ∧
    (E.contacts (E.applyReset g.pose g.width s) = [] →
      ((PhysicsMetric.quality E g s).2.2
          = [.reset g.pose g.width, .close, .lift] ∧
       (PhysicsMetric.quality E g s).2.1
          = E.applyLift (E.applyClose (E.applyReset g.pose g.width s)) ∧
       ((1 / 10 : ℚ) * PandaGripper.max_width
            < E.width (E.applyLift (E.applyClose (E.applyReset g.pose g.width s)))
          ∧ E.contacts (E.applyLift (E.applyClose (E.applyReset g.pose g.width s))) ≠ [] →
         (PhysicsMetric.quality E g s).1
            = (1, (E.contacts (E.applyLift (E.applyClose
                (E.applyReset g.pose g.width s)))).head?.map ContactPoint.bodyB)) ∧
       (¬((1 / 10 : ℚ) * PandaGripper.max_width
            < E.width (E.applyLift (E.applyClose (E.applyReset g.pose g.width s)))
          ∧ E.contacts (E.applyLift (E.applyClose (E.applyReset g.pose g.width s))) ≠ []) →
         (PhysicsMetric.quality E g s).1 = (0, none)))) := by
  refine ⟨fun h => PhysicsMetric.quality_of_contact E g s h, fun h0 => ?_⟩
  refine ⟨?_, ?_, ?_, ?_⟩
  · by_cases h1 : (1 / 10 : ℚ) * PandaGripper.max_width
        < E.width (E.applyLift (E.applyClose (E.applyReset g.pose g.width s)))
      ∧ E.contacts (E.applyLift (E.applyClose (E.applyReset g.pose g.width s))) ≠ []
    · rw [PhysicsMetric.quality_of_free_success E g s h0 h1.1 h1.2]
    · rw [PhysicsMetric.quality_of_free_fail E g s h0 h1]
  · by_cases h1 : (1 / 10 : ℚ) * PandaGripper.max_width
        < E.width (E.applyLift (E.applyClose (E.applyReset g.pose g.width s)))
      ∧ E.contacts (E.applyLift (E.applyClose (E.applyReset g.pose g.width s))) ≠ []
    · rw [PhysicsMetric.quality_of_free_success E g s h0 h1.1 h1.2]
    · rw [PhysicsMetric.quality_of_free_fail E g s h0 h1]
  · intro h1
    rw [PhysicsMetric.quality_of_free_success E g s h0 h1.1 h1.2]
  · intro h1
    rw [PhysicsMetric.quality_of_free_fail E g s h0 h1]

/-- Closed witness for C1: in the always-in-contact engine, the quality test
scores 0 with empty metadata and only ever issues the reset command. -/
theorem claim_C1_physics_quality_witness :
    PhysicsMetric.quality EContact gW 0
      = ((0, none), 1, [.reset gW.pose gW.width]) :=
  (claim_C1_physics_quality EContact gW 0).1 (by decide)

end ClaimC1

section RobustLemmas

variable {σ Pose Rot : Type}

theorem Rng.uniform3_snd (r : Rng) (lo hi : V3) :
    (r.uniform3 lo hi).2 = r.advance := rfl

theorem Rng.uniform1_snd (r : Rng) (lo hi : ℚ) :
    (r.uniform1 lo hi).2 = r.advance := rfl

theorem Rng.uniform2_snd (r : Rng) (lo hi : ℚ) :
    (r.uniform2 lo hi).2 = r.advance := rfl

theorem RobustPhysicsMetric.trialDraw_succ (cfg : RobustCfg) (r : Rng) (i : ℕ) :
    RobustPhysicsMetric.trialDraw cfg r (i + 1)
      = RobustPhysicsMetric.trialDraw cfg (r.advanceBy 2) i := by
  have h : 2 * (i + 1) = 2 + 2 * i := by ring
  simp only [RobustPhysicsMetric.trialDraw, Rng.advanceBy_advanceBy, h]

theorem RobustPhysicsMetric.trialGrasp_succ (O : SpatialOps Pose Rot)
    (cfg : RobustCfg) (pose0 : Pose) (width0 : ℚ) (r : Rng) (i : ℕ) :
    RobustPhysicsMetric.trialGrasp O cfg pose0 width0 r (i + 1)
      = RobustPhysicsMetric.trialGrasp O cfg pose0 width0 (r.advanceBy 2) i := by
  simp only [RobustPhysicsMetric.trialGrasp, RobustPhysicsMetric.trialDraw_succ]

theorem RobustPhysicsMetric.trialGrasp_zero (O : SpatialOps Pose Rot)
    (cfg : RobustCfg) (pose0 : Pose) (width0 : ℚ) (r : Rng) :
    RobustPhysicsMetric.trialGrasp O cfg pose0 width0 r 0
      = ⟨O.comp pose0 (O.transform
          (O.fromEulerXYZ (r.uniform3 cfg.rpy.neg cfg.rpy).1)
          ((r.uniform3 cfg.rpy.neg cfg.rpy).2.uniform3 cfg.xyz.neg cfg.xyz).1),
         width0⟩ := by
  simp only [RobustPhysicsMetric.trialGrasp, RobustPhysicsMetric.trialDraw,
    Nat.mul_zero, Rng.advanceBy_zero]

theorem RobustPhysicsMetric.trialState_shift (E : GripEngine σ Pose)
    (O : SpatialOps Pose Rot) (cfg : RobustCfg) (pose0 : Pose) (width0 : ℚ)
    (r : Rng) (s0 : σ) (i : ℕ) :
    RobustPhysicsMetric.trialState E O cfg pose0 width0 r s0 (i + 1)
      = RobustPhysicsMetric.trialState E O cfg pose0 width0 (r.advanceBy 2)
          (RobustPhysicsMetric.trialNext E O cfg pose0 width0 r s0) i := by
  induction i with
  | zero => rfl
  | succ i ih =>
    show (PhysicsMetric.quality E
        (RobustPhysicsMetric.trialGrasp O cfg pose0 width0 r (i + 1))
        (E.applyRestore
          (RobustPhysicsMetric.trialState E O cfg pose0 width0 r s0 (i + 1)))).2.1
      = _
    rw [RobustPhysicsMetric.trialGrasp_succ, ih]
    rfl

theorem RobustPhysicsMetric.trialValue_shift (E : GripEngine σ Pose)
    (O : SpatialOps Pose Rot) (cfg : RobustCfg) (pose0 : Pose) (width0 : ℚ)
    (r : Rng) (s0 : σ) (i : ℕ) :
    RobustPhysicsMetric.trialValue E O cfg pose0 width0 r s0 (i + 1)
      = RobustPhysicsMetric.trialValue E O cfg pose0 width0 (r.advanceBy 2)
          (RobustPhysicsMetric.trialNext E O cfg pose0 width0 r s0) i := by
  simp only [RobustPhysicsMetric.trialValue, RobustPhysicsMetric.trialGrasp_succ,
    RobustPhysicsMetric.trialState_shift]

theorem RobustPhysicsMetric.trialTrace_shift (E : GripEngine σ Pose)
    (O : SpatialOps Pose Rot) (cfg : RobustCfg) (pose0 : Pose) (width0 : ℚ)
    (r : Rng) (s0 : σ) (i : ℕ) :
    RobustPhysicsMetric.trialTrace E O cfg pose0 width0 r s0 (i + 1)
      = RobustPhysicsMetric.trialTrace E O cfg pose0 width0 (r.advanceBy 2)
          (RobustPhysicsMetric.trialNext E O cfg pose0 width0 r s0) i := by
  simp only [RobustPhysicsMetric.trialTrace, RobustPhysicsMetric.trialGrasp_succ,
    RobustPhysicsMetric.trialState_shift]

theorem RobustPhysicsMetric.loop_succ (E : GripEngine σ Pose)
    (O : SpatialOps Pose Rot) (cfg : RobustCfg) (pose0 : Pose) (width0 : ℚ)
    (n : ℕ) (r : Rng) (s : σ) :
    RobustPhysicsMetric.loop E O cfg pose0 width0 (n + 1) r s
      = (if (PhysicsMetric.quality E
              (RobustPhysicsMetric.trialGrasp O cfg pose0 width0 r 0)
              (E.applyRestore s)).1.1 = 0 then
          ((0, none),
           RobustPhysicsMetric.trialNext E O cfg pose0 width0 r s,
           r.advanceBy 2,
           .restore :: (PhysicsMetric.quality E
              (RobustPhysicsMetric.trialGrasp O cfg pose0 width0 r 0)
              (E.applyRestore s)).2.2)
        else
          ((RobustPhysicsMetric.loop E O cfg pose0 width0 n (r.advanceBy 2)
              (RobustPhysicsMetric.trialNext E O cfg pose0 width0 r s)).1,
           (RobustPhysicsMetric.loop E O cfg pose0 width0 n (r.advanceBy 2)
              (RobustPhysicsMetric.trialNext E O cfg pose0 width0 r s)).2.1,
           (RobustPhysicsMetric.loop E O cfg pose0 width0 n (r.advanceBy 2)
              (RobustPhysicsMetric.trialNext E O cfg pose0 width0 r s)).2.2.1,
           (.restore :: (PhysicsMetric.quality E
              (RobustPhysicsMetric.trialGrasp O cfg pose0 width0 r 0)
              (E.applyRestore s)).2.2)
             ++ (RobustPhysicsMetric.loop E O cfg pose0 width0 n (r.advanceBy 2)
                  (RobustPhysicsMetric.trialNext E O cfg pose0 width0 r s)).2.2.2)) := by
  rw [RobustPhysicsMetric.trialGrasp_zero]
  simp only [RobustPhysicsMetric.loop, RobustPhysicsMetric.trialNext,
    RobustPhysicsMetric.trialGrasp_zero, Rng.uniform3_snd, Rng.advance_advance]

end RobustLemmas

section RobustMain

variable {σ Pose Rot : Type}

theorem flatMap_range_succ_left {α : Type} (f : ℕ → List α) (n : ℕ) :
    (List.range (n + 1)).flatMap f
      = f 0 ++ (List.range n).flatMap (fun i => f (i + 1)) := by
  rw [List.range_succ_eq_map, List.flatMap_cons, List.flatMap_map]

theorem RobustPhysicsMetric.trialTrace_zero (E : GripEngine σ Pose)
    (O : SpatialOps Pose Rot) (cfg : RobustCfg) (pose0 : Pose) (width0 : ℚ)
    (r : Rng) (s : σ) :
    RobustPhysicsMetric.trialTrace E O cfg pose0 width0 r s 0
      = .restore :: (PhysicsMetric.quality E
          (RobustPhysicsMetric.trialGrasp O cfg pose0 width0 r 0)
          (E.applyRestore s)).2.2 := rfl

theorem RobustPhysicsMetric.loop_eq_of_all_pass (E : GripEngine σ Pose)
    (O : SpatialOps Pose Rot) (cfg : RobustCfg) (pose0 : Pose) (width0 : ℚ) :
    ∀ (n : ℕ) (r : Rng) (s : σ),
    (∀ i < n, RobustPhysicsMetric.trialValue E O cfg pose0 width0 r s i ≠ 0) →
    RobustPhysicsMetric.loop E O cfg pose0 width0 n r s
      = ((1, none), RobustPhysicsMetric.trialState E O cfg pose0 width0 r s n,
         r.advanceBy (2 * n),
         (List.range n).flatMap
           (RobustPhysicsMetric.trialTrace E O cfg pose0 width0 r s)) := by
  intro n
  induction n with
  | zero =>
    intro r s h
    simp [RobustPhysicsMetric.loop, RobustPhysicsMetric.trialState,
      Rng.advanceBy_zero]
  | succ n ih =>
    intro r s h
    rw [RobustPhysicsMetric.loop_succ]
    have hv : ¬((PhysicsMetric.quality E
        (RobustPhysicsMetric.trialGrasp O cfg pose0 width0 r 0)
        (E.applyRestore s)).1.1 = 0) := h 0 (Nat.succ_pos n)
    rw [if_neg hv]
    have h2 : ∀ i < n, RobustPhysicsMetric.trialValue E O cfg pose0 width0
        (r.advanceBy 2) (RobustPhysicsMetric.trialNext E O cfg pose0 width0 r s)
        i ≠ 0 := by
      intro i hi
      have h3 := h (i + 1) (Nat.succ_lt_succ hi)
      rwa [RobustPhysicsMetric.trialValue_shift] at h3
    rw [ih (r.advanceBy 2) _ h2]
    have harith : 2 * (n + 1) = 2 + 2 * n := by ring
    conv_rhs => rw [RobustPhysicsMetric.trialState_shift, harith,
      flatMap_range_succ_left]
    rw [Rng.advanceBy_advanceBy, RobustPhysicsMetric.trialTrace_zero]
    simp only [RobustPhysicsMetric.trialTrace_shift]

theorem RobustPhysicsMetric.loop_eq_of_fail (E : GripEngine σ Pose)
    (O : SpatialOps Pose Rot) (cfg : RobustCfg) (pose0 : Pose) (width0 : ℚ) :
    ∀ (k n : ℕ) (r : Rng) (s : σ), k < n →
    RobustPhysicsMetric.trialValue E O cfg pose0 width0 r s k = 0 →
    (∀ j < k, RobustPhysicsMetric.trialValue E O cfg pose0 width0 r s j ≠ 0) →
    RobustPhysicsMetric.loop E O cfg pose0 width0 n r s
      = ((0, none),
         RobustPhysicsMetric.trialState E O cfg pose0 width0 r s (k + 1),
         r.advanceBy (2 * (k + 1)),
         (List.range (k + 1)).flatMap
           (RobustPhysicsMetric.trialTrace E O cfg pose0 width0 r s)) := by
  intro k
  induction k with
  | zero =>
    intro n r s hkn hf hpre
    obtain ⟨m, rfl⟩ : ∃ m, n = m + 1 := ⟨n - 1, by omega⟩
    have hf0 : (PhysicsMetric.quality E
        (RobustPhysicsMetric.trialGrasp O cfg pose0 width0 r 0)
        (E.applyRestore s)).1.1 = 0 := hf
    rw [RobustPhysicsMetric.loop_succ, if_pos hf0, flatMap_range_succ_left,
      RobustPhysicsMetric.trialTrace_zero]
    simp [RobustPhysicsMetric.trialNext, RobustPhysicsMetric.trialState]
  | succ k ih =>
    intro n r s hkn hf hpre
    obtain ⟨m, rfl⟩ : ∃ m, n = m + 1 := ⟨n - 1, by omega⟩
    rw [RobustPhysicsMetric.loop_succ]
    have hv : ¬((PhysicsMetric.quality E
        (RobustPhysicsMetric.trialGrasp O cfg pose0 width0 r 0)
        (E.applyRestore s)).1.1 = 0) := hpre 0 (Nat.succ_pos k)
    rw [if_neg hv]
    have hf2 : RobustPhysicsMetric.trialValue E O cfg pose0 width0
        (r.advanceBy 2) (RobustPhysicsMetric.trialNext E O cfg pose0 width0 r s)
        k = 0 := by
      rwa [RobustPhysicsMetric.trialValue_shift] at hf
    have hpre2 : ∀ j < k, RobustPhysicsMetric.trialValue E O cfg pose0 width0
        (r.advanceBy 2) (RobustPhysicsMetric.trialNext E O cfg pose0 width0 r s)
        j ≠ 0 := by
      intro j hj
      have h3 := hpre (j + 1) (Nat.succ_lt_succ hj)
      rwa [RobustPhysicsMetric.trialValue_shift] at h3
    rw [ih m (r.advanceBy 2) _ (by omega) hf2 hpre2]
    have harith : 2 * (k + 1 + 1) = 2 + 2 * (k + 1) := by ring
    conv_rhs => rw [RobustPhysicsMetric.trialState_shift, harith,
      flatMap_range_succ_left]
    rw [Rng.advanceBy_advanceBy, RobustPhysicsMetric.trialTrace_zero]
    simp only [RobustPhysicsMetric.trialTrace_shift]

end RobustMain

section ClaimC2C3C10

variable {σ Pose Rot : Type}

theorem RobustPhysicsMetric.trialValue_cases (E : GripEngine σ Pose)
    (O : SpatialOps Pose Rot) (cfg : RobustCfg) (pose0 : Pose) (width0 : ℚ)
    (r : Rng) (s : σ) (i : ℕ) :
    RobustPhysicsMetric.trialValue E O cfg pose0 width0 r s i = 0 ∨
    RobustPhysicsMetric.trialValue E O cfg pose0 width0 r s i = 1 :=
  PhysicsMetric.quality_value_cases E _ _

theorem unif_mem_lower (lo hi u : ℚ) (h0 : 0 ≤ u) (h1 : u ≤ 1) (hlh : lo ≤ hi) :
    lo ≤ lo + u * (hi - lo) := by nlinarith

theorem unif_mem_upper (lo hi u : ℚ) (h0 : 0 ≤ u) (h1 : u ≤ 1) (hlh : lo ≤ hi) :
    lo + u * (hi - lo) ≤ hi := by nlinarith

/-- C2: for every grasp and configured sample count N, the RobustPhysics
evaluation draws its N perturbations from the injected generator uniformly
within the configured rpy and xyz bounds (conjunct three, given the
generator contract), applies each to the ORIGINAL candidate pose (visible in
`trialGrasp`), restores the saved snapshot before each trial (visible in
`trialState`/`trialTrace`), and evaluates with the Physics quality test: it
returns quality 1 exactly after all N trials pass (conjunct one), and
short-circuits with quality 0 and empty metadata at the first failing
sample, never drawing or running later trials (conjunct two: the returned
rng has consumed exactly 2*(k+1) calls and the trace stops at trial k). -/
theorem claim_C2_robust_physics (E : GripEngine σ Pose) (O : SpatialOps Pose Rot)
    (cfg : RobustCfg) (g : ParallelJawGrasp Pose) (r : Rng) (s : σ) :
    ((∀ i < cfg.sample_count,
        RobustPhysicsMetric.trialValue E O cfg g.pose g.width r s i ≠ 0) →
      RobustPhysicsMetric.call E O cfg g r s
        = ((1, none),
           RobustPhysicsMetric.trialState E O cfg g.pose g.width r s
             cfg.sample_count,
           r.advanceBy (2 * cfg.sample_count),
           (List.range cfg.sample_count).flatMap
             (RobustPhysicsMetric.trialTrace E O cfg g.pose g.width r s))) ∧
    (∀ k < cfg.sample_count,
      RobustPhysicsMetric.trialValue E O cfg g.pose g.width r s k = 0 →
      (∀ j < k, RobustPhysicsMetric.trialValue E O cfg g.pose g.width r s j ≠ 0) →
      RobustPhysicsMetric.call E O cfg g r s
        = ((0, none),
           RobustPhysicsMetric.trialState E O cfg g.pose g.width r s (k + 1),
           r.advanceBy (2 * (k + 1)),
           (List.range (k + 1)).flatMap
             (RobustPhysicsMetric.trialTrace E O cfg g.pose g.width r s))) ∧
    (r.unitInterval →
      (0 ≤ cfg.rpy.x ∧ 0 ≤ cfg.rpy.y ∧ 0 ≤ cfg.rpy.z) →
      (0 ≤ cfg.xyz.x ∧ 0 ≤ cfg.xyz.y ∧ 0 ≤ cfg.xyz.z) →
      ∀ i,
        V3.between cfg.rpy.neg (RobustPhysicsMetric.trialDraw cfg r i).1 cfg.rpy
        ∧ V3.between cfg.xyz.neg (RobustPhysicsMetric.trialDraw cfg r i).2
            cfg.xyz) := by
  refine ⟨?_, ?_, ?_⟩
  · intro h
    exact RobustPhysicsMetric.loop_eq_of_all_pass E O cfg g.pose g.width
      cfg.sample_count r s h
  · intro k hk hf hpre
    exact RobustPhysicsMetric.loop_eq_of_fail E O cfg g.pose g.width
      k cfg.sample_count r s hk hf hpre
  · intro hu hr hx i
    obtain ⟨hr1, hr2, hr3⟩ := hr
    obtain ⟨hx1, hx2, hx3⟩ := hx
    have u1 := hu (r.pos + 2 * i) 0
    have u2 := hu (r.pos + 2 * i) 1
    have u3 := hu (r.pos + 2 * i) 2
    have u4 := hu (r.pos + 2 * i + 1) 0
    have u5 := hu (r.pos + 2 * i + 1) 1
    have u6 := hu (r.pos + 2 * i + 1) 2
    simp only [RobustPhysicsMetric.trialDraw, Rng.uniform3, Rng.advanceBy,
      Rng.advance, V3.neg, V3.between]
    exact ⟨⟨unif_mem_lower _ _ _ u1.1 u1.2 (by linarith),
           unif_mem_upper _ _ _ u1.1 u1.2 (by linarith),
           unif_mem_lower _ _ _ u2.1 u2.2 (by linarith),
           unif_mem_upper _ _ _ u2.1 u2.2 (by linarith),
           unif_mem_lower _ _ _ u3.1 u3.2 (by linarith),
           unif_mem_upper _ _ _ u3.1 u3.2 (by linarith)⟩,
          unif_mem_lower _ _ _ u4.1 u4.2 (by linarith),
          unif_mem_upper _ _ _ u4.1 u4.2 (by linarith),
          unif_mem_lower _ _ _ u5.1 u5.2 (by linarith),
          unif_mem_upper _ _ _ u5.1 u5.2 (by linarith),
          unif_mem_lower _ _ _ u6.1 u6.2 (by linarith),
          unif_mem_upper _ _ _ u6.1 u6.2 (by linarith)⟩

/-- Closed witness for C2: in the always-succeeding engine, both sampled
trials pass and the evaluation returns quality 1 with empty metadata after
consuming exactly four rng calls. -/
theorem claim_C2_robust_physics_witness :
    RobustPhysicsMetric.call ESucc ONat CfgW gW RZero 0
      = ((1, none),
         RobustPhysicsMetric.trialState ESucc ONat CfgW gW.pose gW.width RZero 0
           CfgW.sample_count,
         RZero.advanceBy (2 * CfgW.sample_count),
         (List.range CfgW.sample_count).flatMap
           (RobustPhysicsMetric.trialTrace ESucc ONat CfgW gW.pose gW.width
             RZero 0)) :=
  (claim_C2_robust_physics ESucc ONat CfgW gW RZero 0).1 (by
    intro i hi
    norm_num [RobustPhysicsMetric.trialValue, PhysicsMetric.quality, ESucc,
      PandaGripper.max_width])

theorem RobustPhysicsMetric.trialState_count_irrel (E : GripEngine σ Pose)
    (O : SpatialOps Pose Rot) (xyz rpy : V3) (N M : ℕ) (pose0 : Pose)
    (width0 : ℚ) (r : Rng) (s : σ) (i : ℕ) :
    RobustPhysicsMetric.trialState E O ⟨xyz, rpy, N⟩ pose0 width0 r s i
      = RobustPhysicsMetric.trialState E O ⟨xyz, rpy, M⟩ pose0 width0 r s i := by
  induction i with
  | zero => rfl
  | succ i ih =>
    show (PhysicsMetric.quality E
        (RobustPhysicsMetric.trialGrasp O ⟨xyz, rpy, N⟩ pose0 width0 r i)
        (E.applyRestore
          (RobustPhysicsMetric.trialState E O ⟨xyz, rpy, N⟩ pose0 width0 r s
            i))).2.1 = _
    rw [ih]
    rfl

theorem RobustPhysicsMetric.trialValue_count_irrel (E : GripEngine σ Pose)
    (O : SpatialOps Pose Rot) (xyz rpy : V3) (N M : ℕ) (pose0 : Pose)
    (width0 : ℚ) (r : Rng) (s : σ) (i : ℕ) :
    RobustPhysicsMetric.trialValue E O ⟨xyz, rpy, N⟩ pose0 width0 r s i
      = RobustPhysicsMetric.trialValue E O ⟨xyz, rpy, M⟩ pose0 width0 r s i := by
  simp only [RobustPhysicsMetric.trialValue]
  rw [RobustPhysicsMetric.trialState_count_irrel E O xyz rpy N M pose0 width0
    r s i]
  rfl

/-- C3: for a fixed grasp, rng state and scene state, increasing the
RobustPhysics sample count cannot turn a failure into a success: if the
evaluation with N samples returns quality 0, the evaluation with M >= N
samples (same seed position, same stream) also returns quality 0, because
success needs every trial to pass and the first N draws are a prefix of the
M draws. -/
theorem claim_C3_sample_count_monotone (E : GripEngine σ Pose)
    (O : SpatialOps Pose Rot) (xyz rpy : V3) (N M : ℕ)
    (g : ParallelJawGrasp Pose) (r : Rng) (s : σ) (hNM : N ≤ M)
    (h0 : (RobustPhysicsMetric.call E O ⟨xyz, rpy, N⟩ g r s).1.1 = 0) :
    (RobustPhysicsMetric.call E O ⟨xyz, rpy, M⟩ g r s).1.1 = 0 := by
  by_cases hall : ∀ i < N,
      RobustPhysicsMetric.trialValue E O ⟨xyz, rpy, N⟩ g.pose g.width r s i ≠ 0
  · rw [RobustPhysicsMetric.call,
      RobustPhysicsMetric.loop_eq_of_all_pass E O ⟨xyz, rpy, N⟩ g.pose g.width
        N r s hall] at h0
    exact absurd h0 (by norm_num)
  · push_neg at hall
    obtain ⟨i, hiN, hi0⟩ := hall
    rw [RobustPhysicsMetric.trialValue_count_irrel E O xyz rpy N M g.pose
      g.width r s i] at hi0
    have hex : ∃ j, RobustPhysicsMetric.trialValue E O ⟨xyz, rpy, M⟩ g.pose
        g.width r s j = 0 := ⟨i, hi0⟩
    have hk0 := Nat.find_spec hex
    have hkle : Nat.find hex ≤ i := Nat.find_min' hex hi0
    have hkM : Nat.find hex < M := by omega
    have hpre : ∀ j < Nat.find hex,
        RobustPhysicsMetric.trialValue E O ⟨xyz, rpy, M⟩ g.pose g.width r s
          j ≠ 0 := fun j hj => Nat.find_min hex hj
    rw [RobustPhysicsMetric.call,
      RobustPhysicsMetric.loop_eq_of_fail E O ⟨xyz, rpy, M⟩ g.pose g.width
        (Nat.find hex) M r s hkM hk0 hpre]

/-- Closed witness for C3: in the always-in-contact engine a single sample
already fails, so the two-sample evaluation fails as well. -/
theorem claim_C3_sample_count_monotone_witness :
    (RobustPhysicsMetric.call EContact ONat ⟨⟨0, 0, 0⟩, ⟨0, 0, 0⟩, 2⟩ gW
      RZero 0).1.1 = 0 :=
  claim_C3_sample_count_monotone EContact ONat ⟨0, 0, 0⟩ ⟨0, 0, 0⟩ 1 2 gW
    RZero 0 (by norm_num) (by
      show (RobustPhysicsMetric.loop EContact ONat ⟨⟨0, 0, 0⟩, ⟨0, 0, 0⟩, 1⟩
        gW.pose gW.width (0 + 1) RZero 0).1.1 = 0
      rw [RobustPhysicsMetric.loop_succ]
      norm_num [PhysicsMetric.quality, EContact])

/-- C10: the RobustPhysics evaluation never reports metadata: its result
carries `none` (the empty dict) in every case, including success, even
though each underlying Physics trial computes a contacted object id (second
conjunct: the same quality test that the trials run yields `some 3` in the
always-succeeding engine). -/
theorem claim_C10_robust_metadata (E : GripEngine σ Pose)
    (O : SpatialOps Pose Rot) (cfg : RobustCfg) (g : ParallelJawGrasp Pose)
    (r : Rng) (s : σ) :
    (RobustPhysicsMetric.call E O cfg g r s).1.2 = none ∧
    (PhysicsMetric.quality ESucc gW (ESucc.applyRestore 0)).1.2 = some 3 := by
  constructor
  · rw [RobustPhysicsMetric.call]
    generalize cfg.sample_count = n
    induction n generalizing r s with
    | zero => rfl
    | succ n ih =>
      rw [RobustPhysicsMetric.loop_succ]
      by_cases hv : (PhysicsMetric.quality E
          (RobustPhysicsMetric.trialGrasp O cfg g.pose g.width r 0)
          (E.applyRestore s)).1.1 = 0
      · rw [if_pos hv]
      · rw [if_neg hv]
        exact ih (r.advanceBy 2) _
  · norm_num [PhysicsMetric.quality, ESucc, gW, PandaGripper.max_width]

end ClaimC2C3C10

/-- C4 (code-bug evidence): the lift issues exactly 60 constraint commands
(one per step), every command keeps the entry orientation and the entry x
and y, and the commanded z ramps linearly from the entry z; but the LAST and
largest commanded target sits at `z + 59/600`, short of the `z + 0.1` that
the claim (and the comment in the source, `Lift the object by 10 cm`)
announces: the total commanded ramp distance over the 60 steps is
`59/600 < 1/10`. Evaluated at entry pose `(1, 2, 3)` with orientation
code 5. -/
theorem claim_C4_lift_ramp_eval :
    (PandaGripper.liftCommands ℕ ⟨1, 2, 3⟩ 5).length = 60 ∧
    (PandaGripper.liftCommands ℕ ⟨1, 2, 3⟩ 5).map
        (fun c => (c.ori, c.target.x, c.target.y))
      = List.replicate 60 (5, (1 : ℚ), (2 : ℚ)) ∧
    (PandaGripper.liftCommands ℕ ⟨1, 2, 3⟩ 5).map (fun c => c.target.z)
      = (List.range 60).map (fun i : ℕ => 3 + (i : ℚ) / 600) ∧
    (PandaGripper.liftCommands ℕ ⟨1, 2, 3⟩ 5).getLast?
      = some ⟨5, ⟨1, 2, 3 + 59 / 600⟩⟩ ∧
    ((3 : ℚ) + 59 / 600) - 3 < 1 / 10 := by
  refine ⟨?_, ?_, ?_, ?_, by norm_num⟩
  · simp [PandaGripper.liftCommands]
  · rw [PandaGripper.liftCommands, List.map_map]
    have : ((fun c : LiftCmd ℕ => (c.ori, c.target.x, c.target.y)) ∘
        fun i : ℕ => (⟨5, V3.add ⟨1, 2, 3⟩ ⟨0, 0, (i : ℚ) * 1 / 60 * (1 / 10)⟩⟩ :
          LiftCmd ℕ))
        = fun _ => (5, (1 : ℚ), (2 : ℚ)) := by
      funext i
      simp [V3.add]
    rw [this, List.map_const', List.length_range]
  · rw [PandaGripper.liftCommands, List.map_map]
    refine List.map_congr_left ?_
    intro i hi
    simp only [Function.comp_apply, V3.add]
    norm_num
    ring
  · rw [PandaGripper.liftCommands, List.getLast?_eq_getElem?]
    simp only [List.length_map, List.length_range, List.getElem?_map]
    rw [List.getElem?_range (by norm_num)]
    simp [V3.add]
    norm_num

section ClaimC7C8

variable {ε Pose Rot : Type}

/-- C7: a session holds at most one live snapshot handle. Every `save_state`
overwrites the handle with the id of the state just saved, whatever was
there before (conjunct one); `restore_state` right after a (second) save
restores exactly the most recently saved id (conjuncts two and three); and
`restore_state` on a session that never saved fails with an error instead
of silently restoring anything (conjunct four). -/
theorem claim_C7_snapshot_handle (E : SessEngine ε) (s : GraspSimSt ε) :
    ((GraspSim.save_state E s).snapshot_id = some (E.saveState s.engine).1) ∧
    (GraspSim.restore_state E (GraspSim.save_state E s)
      = .ok ⟨E.restoreState (E.saveState s.engine).1 (E.saveState s.engine).2,
             some (E.saveState s.engine).1⟩) ∧
    ((GraspSim.save_state E (GraspSim.save_state E s)).snapshot_id
      = some (E.saveState (E.saveState s.engine).2).1) ∧
    (s.snapshot_id = none →
      GraspSim.restore_state E s
        = .error "AttributeError: GraspSim object has no snapshot_id") := by
  refine ⟨rfl, rfl, rfl, fun h => ?_⟩
  cases s with
  | mk engine sid =>
    cases h
    rfl

/-- Closed witness for C7: restoring a fresh session (no prior save) fails
with the precondition error. -/
theorem claim_C7_snapshot_handle_witness :
    GraspSim.restore_state ESess ⟨0, none⟩
      = .error "AttributeError: GraspSim object has no snapshot_id" :=
  (claim_C7_snapshot_handle ESess ⟨0, none⟩).2.2.2 rfl

/-- C8 counterexample: the claim says an over-wide command (width 0.1 over
the 0.08 maximum) is clamped or rejected. In the code, `reset` writes
`0.5 * width = 0.05` into each finger joint unconditionally: the value
written is not the clamped `0.04 = max_width / 2`, exceeds it, and the call
returns an ordinary state rather than an error. -/
theorem claim_C8_reset_counterexample :
    (PandaGripper.resetWrite ONat 0 0 (1 / 10) ⟨0, 0, 0⟩).joint0 = 1 / 20 ∧
    (PandaGripper.resetWrite ONat 0 0 (1 / 10) ⟨0, 0, 0⟩).joint1 = 1 / 20 ∧
    PandaGripper.max_width < (1 / 10 : ℚ) ∧
    ¬((PandaGripper.resetWrite ONat 0 0 (1 / 10) ⟨0, 0, 0⟩).joint0
        ≤ 1 / 2 * PandaGripper.max_width) := by
  refine ⟨by norm_num [PandaGripper.resetWrite], by norm_num [PandaGripper.resetWrite],
    by norm_num [PandaGripper.max_width], ?_⟩
  norm_num [PandaGripper.resetWrite, PandaGripper.max_width]

/-- C8 amended: `reset` applies the commanded width verbatim, with no
boundary policy at all: each finger joint is set to exactly half the
commanded width, and whenever the command exceeds `max_width` the written
joint values exceed the per-finger range `max_width / 2` (no clamping), while
the call still returns normally (no rejection). -/
theorem claim_C8_reset_amended (O : SpatialOps Pose Rot) (T_ee_com pose : Pose)
    (width : ℚ) (g : GripperSt Pose) :
    (PandaGripper.resetWrite O T_ee_com pose width g).joint0 = 1 / 2 * width ∧
    (PandaGripper.resetWrite O T_ee_com pose width g).joint1 = 1 / 2 * width ∧
    (PandaGripper.resetWrite O T_ee_com pose width g).base
      = O.comp pose T_ee_com ∧
    (PandaGripper.max_width < width →
      1 / 2 * PandaGripper.max_width
        < (PandaGripper.resetWrite O T_ee_com pose width g).joint0) := by
  refine ⟨rfl, rfl, rfl, fun h => ?_⟩
  show 1 / 2 * PandaGripper.max_width < 1 / 2 * width
  nlinarith

/-- Closed witness for C8 amended: at commanded width 0.1 the written joint
value strictly exceeds the per-finger range bound 0.04. -/
theorem claim_C8_reset_amended_witness :
    1 / 2 * PandaGripper.max_width
      < (PandaGripper.resetWrite ONat 0 0 (1 / 10) ⟨0, 0, 0⟩).joint0 :=
  (claim_C8_reset_amended ONat 0 0 (1 / 10) ⟨0, 0, 0⟩).2.2.2
    (by norm_num [PandaGripper.max_width])

end ClaimC7C8

section ClaimC9

variable {Rot : Type}

/-- C9: the scene operations keep the managed handle set and the live body
set of the session in sync. Under the scene invariant, `add_object` loads
the body and records its handle (the fresh handle is in both the body set
and the handle list, and the invariant still holds), and `remove_object`
deletes the body and drops the handle in the same operation (the handle is
gone from both, and the invariant still holds). -/
theorem claim_C9_scene_handle_sync (sc : SceneSt Rot) (rot : Rot) (t : V3)
    (uid : ℕ) (h : SceneInv sc) :
    SceneInv (Scene.add_object sc rot t).1 ∧
    (Scene.add_object sc rot t).2 ∈ (Scene.add_object sc rot t).1.world.bodies ∧
    (Scene.add_object sc rot t).2 ∈ (Scene.add_object sc rot t).1.object_uids ∧
    SceneInv (Scene.remove_object sc uid) ∧
    uid ∉ (Scene.remove_object sc uid).world.bodies ∧
    uid ∉ (Scene.remove_object sc uid).object_uids := by
  obtain ⟨hmem, hnodup, hlt⟩ := h
  have hfresh : sc.world.nextUid ∉ sc.object_uids := fun hin =>
    absurd (hlt _ hin) (lt_irrefl _)
  refine ⟨⟨?_, ?_, ?_⟩, ?_, ?_, ⟨?_, ?_, ?_⟩, ?_, ?_⟩
  · intro v hv
    simp only [Scene.add_object, ScnWorld.loadBody] at hv ⊢
    rcases List.mem_append.1 hv with hv | hv
    · exact Finset.mem_insert_of_mem (hmem v hv)
    · rw [List.mem_singleton.1 hv]
      exact Finset.mem_insert_self _ _
  · simp only [Scene.add_object, ScnWorld.loadBody]
    exact List.nodup_append.2 ⟨hnodup, List.nodup_singleton _,
      List.disjoint_singleton.2 hfresh⟩
  · intro v hv
    simp only [Scene.add_object, ScnWorld.loadBody] at hv ⊢
    rcases List.mem_append.1 hv with hv | hv
    · exact Nat.lt_succ_of_lt (hlt v hv)
    · rw [List.mem_singleton.1 hv]
      exact Nat.lt_succ_self _
  · simp only [Scene.add_object, ScnWorld.loadBody]
    exact Finset.mem_insert_self _ _
  · simp only [Scene.add_object, ScnWorld.loadBody]
    exact List.mem_append.2 (Or.inr (List.mem_singleton.2 rfl))
  · intro v hv
    simp only [Scene.remove_object, ScnWorld.removeBody] at hv ⊢
    obtain ⟨hne, hin⟩ := hnodup.mem_erase_iff.1 hv
    exact Finset.mem_erase.2 ⟨hne, hmem v hin⟩
  · exact hnodup.erase uid
  · intro v hv
    exact hlt v (List.mem_of_mem_erase hv)
  · simp only [Scene.remove_object, ScnWorld.removeBody]
    exact Finset.not_mem_erase uid _
  · simp only [Scene.remove_object]
    intro hv
    exact absurd rfl (hnodup.mem_erase_iff.1 hv).1

/-- Closed witness for C9: removing object 1 from the concrete three-object
scene leaves its handle in neither the handle list nor the body set. -/
theorem claim_C9_scene_handle_sync_witness :
    1 ∉ (Scene.remove_object scC5 1).object_uids ∧
    1 ∉ (Scene.remove_object scC5 1).world.bodies :=
  ⟨(claim_C9_scene_handle_sync scC5 () ⟨0, 0, 0⟩ 1
      ⟨by decide, by decide, by decide⟩).2.2.2.2.2,
   (claim_C9_scene_handle_sync scC5 () ⟨0, 0, 0⟩ 1
      ⟨by decide, by decide, by decide⟩).2.2.2.2.1⟩

end ClaimC9

section SceneLemmas

variable {Rot : Type}

theorem skipFilter_cons_pos (f : ℕ → Bool) (a : ℕ) (l : List ℕ)
    (h : f a = true) :
    skipFilter f (a :: l) = l.take 1 ++ skipFilter f (l.drop 1) := by
  cases l with
  | nil => simp [skipFilter, h]
  | cons b t => simp [skipFilter, h]

theorem skipFilter_cons_neg (f : ℕ → Bool) (a : ℕ) (l : List ℕ)
    (h : f a = false) :
    skipFilter f (a :: l) = a :: skipFilter f l := by
  cases l with
  | nil => simp [skipFilter, h]
  | cons b t => simp [skipFilter, h]

theorem Scene.remove_object_fields (sc : SceneSt Rot) (uid : ℕ) :
    (Scene.remove_object sc uid).world.pos = sc.world.pos ∧
    (Scene.remove_object sc uid).world.stepCount = sc.world.stepCount ∧
    (Scene.remove_object sc uid).origin = sc.origin ∧
    (Scene.remove_object sc uid).size = sc.size :=
  ⟨rfl, rfl, rfl, rfl⟩

theorem ScnWorld.iterate_step_stepCount (D : SceneDyn Rot) (n : ℕ)
    (w : ScnWorld Rot) :
    ((ScnWorld.step D)^[n] w).stepCount = w.stepCount + n := by
  induction n with
  | zero => rfl
  | succ n ih =>
    rw [Function.iterate_succ_apply']
    show ((ScnWorld.step D)^[n] w).stepCount + 1 = w.stepCount + (n + 1)
    omega

theorem Scene.removeOutsideLoop_world_fields :
    ∀ (fuel i : ℕ) (sc : SceneSt Rot),
    (Scene.removeOutsideLoop fuel i sc).world.stepCount = sc.world.stepCount ∧
    (Scene.removeOutsideLoop fuel i sc).world.pos = sc.world.pos ∧
    (Scene.removeOutsideLoop fuel i sc).origin = sc.origin ∧
    (Scene.removeOutsideLoop fuel i sc).size = sc.size := by
  intro fuel
  induction fuel with
  | zero => intro i sc; exact ⟨rfl, rfl, rfl, rfl⟩
  | succ fuel ih =>
    intro i sc
    show ((match (sc.object_uids.drop i).head? with
      | none => sc
      | some uid =>
        if Scene.outsideTest sc.origin.2 sc.size (sc.world.pos uid) then
          Scene.removeOutsideLoop fuel (i + 1) (Scene.remove_object sc uid)
        else
          Scene.removeOutsideLoop fuel (i + 1) sc).world.stepCount = _) ∧ _
    cases hh : (sc.object_uids.drop i).head? with
    | none => simp [Scene.removeOutsideLoop, hh]
    | some uid =>
      simp only [Scene.removeOutsideLoop, hh]
      by_cases hb : Scene.outsideTest sc.origin.2 sc.size (sc.world.pos uid) = true
      · rw [if_pos hb]
        exact ih (i + 1) (Scene.remove_object sc uid)
      · rw [if_neg hb]
        exact ih (i + 1) sc

end SceneLemmas

section SceneLoopEq

variable {Rot : Type}

theorem Scene.removeOutsideLoop_eq_skipFilter :
    ∀ (fuel i : ℕ) (sc : SceneSt Rot), sc.object_uids.Nodup →
    sc.object_uids.length ≤ fuel + i →
    (Scene.removeOutsideLoop fuel i sc).object_uids
      = sc.object_uids.take i
        ++ skipFilter
            (fun uid => Scene.outsideTest sc.origin.2 sc.size (sc.world.pos uid))
            (sc.object_uids.drop i) := by
  intro fuel
  induction fuel with
  | zero =>
    intro i sc hnd hlen
    simp only [Scene.removeOutsideLoop]
    rw [List.drop_eq_nil_iff_le.2 (by omega), List.take_of_length_le (by omega)]
    simp [skipFilter]
  | succ fuel ih =>
    intro i sc hnd hlen
    cases hh : (sc.object_uids.drop i).head? with
    | none =>
      have hnil : sc.object_uids.drop i = [] := List.head?_eq_none_iff.1 hh
      have hle : sc.object_uids.length ≤ i := List.drop_eq_nil_iff_le.1 hnil
      simp only [Scene.removeOutsideLoop, hh]
      rw [hnil, List.take_of_length_le hle]
      simp [skipFilter]
    | some uid =>
      have hcons : sc.object_uids.drop i = uid :: sc.object_uids.drop (i + 1) := by
        have h1 : uid :: (sc.object_uids.drop i).tail = sc.object_uids.drop i :=
          List.cons_head?_tail (by simp [hh])
        rw [List.tail_drop] at h1
        exact h1.symm
      have hi_lt : i < sc.object_uids.length := by
        by_contra hcontra
        push_neg at hcontra
        rw [List.drop_eq_nil_iff_le.2 hcontra] at hcons
        exact absurd hcons (by simp)
      have hmemdrop : uid ∈ sc.object_uids.drop i := by
        rw [hcons]; exact List.mem_cons_self _ _
      have hmem : uid ∈ sc.object_uids := List.mem_of_mem_drop hmemdrop
      have htakemem : uid ∉ sc.object_uids.take i := by
        have hnd2 : (sc.object_uids.take i ++ sc.object_uids.drop i).Nodup := by
          rw [List.take_append_drop]; exact hnd
        exact fun hmt => (List.nodup_append.1 hnd2).2.2 hmt hmemdrop
      have hlen_take : (sc.object_uids.take i).length = i := by
        rw [List.length_take]
        omega
      simp only [Scene.removeOutsideLoop, hh]
      by_cases hb : Scene.outsideTest sc.origin.2 sc.size (sc.world.pos uid) = true
      · rw [if_pos hb]
        have herase : sc.object_uids.erase uid
            = sc.object_uids.take i ++ sc.object_uids.drop (i + 1) := by
          conv_lhs => rw [← List.take_append_drop i sc.object_uids]
          rw [List.erase_append_right _ htakemem, hcons, List.erase_cons_head]
        have hnd3 : (Scene.remove_object sc uid).object_uids.Nodup :=
          hnd.erase uid
        have hlen3 : (Scene.remove_object sc uid).object_uids.length
            ≤ fuel + (i + 1) := by
          show (sc.object_uids.erase uid).length ≤ _
          rw [List.length_erase_of_mem hmem]
          omega
        rw [ih (i + 1) (Scene.remove_object sc uid) hnd3 hlen3]
        show (sc.object_uids.erase uid).take (i + 1)
            ++ skipFilter
              (fun u => Scene.outsideTest sc.origin.2 sc.size (sc.world.pos u))
              ((sc.object_uids.erase uid).drop (i + 1)) = _
        rw [herase, List.take_append_eq_append_take,
          List.drop_append_eq_append_drop, hlen_take]
        have h1 : i + 1 - i = 1 := by omega
        rw [h1, List.take_take]
        have hmin : (i + 1) ⊓ i = i := by omega
        rw [hmin]
        have hdrop_take : List.drop (i + 1) (List.take i sc.object_uids) = [] :=
          List.drop_eq_nil_iff_le.2 (by rw [hlen_take]; omega)
        rw [hdrop_take, List.nil_append]
        conv_rhs => rw [hcons, skipFilter_cons_pos _ _ _ hb]
        rw [List.append_assoc]
      · rw [if_neg hb]
        have hbf : Scene.outsideTest sc.origin.2 sc.size (sc.world.pos uid)
            = false := by
          revert hb
          cases Scene.outsideTest sc.origin.2 sc.size (sc.world.pos uid) <;> simp
        rw [ih (i + 1) sc hnd (by omega)]
        conv_rhs => rw [hcons, skipFilter_cons_neg _ _ _ hbf]
        have hgi : sc.object_uids[i]? = some uid := by
          rw [← List.head?_drop, hh]
        rw [List.take_succ, hgi]
        simp [List.append_assoc]

end SceneLoopEq

section ClaimC5

variable {Rot : Type}

theorem skipFilter_soundAux (f : ℕ → Bool) :
    ∀ (n : ℕ) (l : List ℕ), l.length ≤ n →
    ∀ x ∈ l, x ∉ skipFilter f l → f x = true := by
  intro n
  induction n with
  | zero =>
    intro l hl x hx _
    have h0 : l.length = 0 := by omega
    rw [List.length_eq_zero.1 h0] at hx
    cases hx
  | succ n ih =>
    intro l hl x hx hnot
    match l with
    | [] => cases hx
    | [a] =>
      rcases List.mem_singleton.1 hx with rfl
      by_cases hf : f x = true
      · exact hf
      · exfalso
        apply hnot
        simp only [skipFilter, if_neg hf]
        exact List.mem_singleton.2 rfl
    | a :: b :: t =>
      by_cases hf : f a = true
      · have hskip : skipFilter f (a :: b :: t) = b :: skipFilter f t := by
          simp [skipFilter, hf]
        rcases hx with _ | ⟨_, hx⟩
        · exact hf
        · rcases hx with _ | ⟨_, hx⟩
          · exfalso
            exact hnot (by rw [hskip]; exact List.mem_cons_self _ _)
          · have hxnot : x ∉ skipFilter f t := fun hmem =>
              hnot (by rw [hskip]; exact List.mem_cons_of_mem _ hmem)
            have hlt : t.length ≤ n := by
              simp only [List.length_cons] at hl
              omega
            exact ih t hlt x hx hxnot
      · have hfa : f a = false := by
          revert hf; cases f a <;> simp
        have hskip : skipFilter f (a :: b :: t) = a :: skipFilter f (b :: t) := by
          simp [skipFilter, hfa]
        rcases hx with _ | ⟨_, hx⟩
        · exfalso
          exact hnot (by rw [hskip]; exact List.mem_cons_self _ _)
        · have hxnot : x ∉ skipFilter f (b :: t) := fun hmem =>
            hnot (by rw [hskip]; exact List.mem_cons_of_mem _ hmem)
          have hlt : (b :: t).length ≤ n := by
            simp only [List.length_cons] at hl ⊢
            omega
          exact ih (b :: t) hlt x hx hxnot

theorem skipFilter_sound (f : ℕ → Bool) (l : List ℕ) :
    ∀ x ∈ l, x ∉ skipFilter f l → f x = true :=
  skipFilter_soundAux f l.length l le_rfl

theorem Scene.wait_fields (D : SceneDyn Rot) (sc : SceneSt Rot) :
    (Scene.wait_for_objects_to_rest D sc).object_uids = sc.object_uids ∧
    (Scene.wait_for_objects_to_rest D sc).origin = sc.origin ∧
    (Scene.wait_for_objects_to_rest D sc).size = sc.size ∧
    (Scene.wait_for_objects_to_rest D sc).world
      = (ScnWorld.step D)^[60] sc.world := by
  refine ⟨?_, ?_, ?_, ?_⟩ <;> simp only [Scene.wait_for_objects_to_rest]

/-- C5 (amended): `remove_outside_objects` first advances the simulation
exactly 60 steps (conjunct one); it then sweeps the object list once from
the left, removing each CHECKED object whose settled position relative to
the scene origin has ANY coordinate (x, y or z, not only the horizontal
ones) strictly below 0 or strictly above the footprint size; because the
handle list is mutated while the sweep iterates over it, the object right
after each removed one is kept without being checked — the surviving
handles are exactly `skipFilter` of that all-coordinates test (conjunct
two). Consequently only objects outside in the all-coordinates sense are
ever removed (conjunct three), but an outside object that follows a removed
one survives, and an object whose horizontal position is inside can be
removed for its z alone. -/
theorem claim_C5_remove_outside_amended (D : SceneDyn Rot) (sc : SceneSt Rot)
    (h : sc.object_uids.Nodup) :
    (Scene.remove_outside_objects D sc).world.stepCount
      = sc.world.stepCount + 60 ∧
    (Scene.remove_outside_objects D sc).object_uids
      = skipFilter
          (fun uid => Scene.outsideTest sc.origin.2 sc.size
            ((Scene.wait_for_objects_to_rest D sc).world.pos uid))
          sc.object_uids ∧
    (∀ uid ∈ sc.object_uids,
      uid ∉ (Scene.remove_outside_objects D sc).object_uids →
      Scene.outsideTest sc.origin.2 sc.size
        ((Scene.wait_for_objects_to_rest D sc).world.pos uid) = true) := by
  have hw := Scene.wait_fields D sc
  have h2 : (Scene.wait_for_objects_to_rest D sc).object_uids.Nodup := by
    rw [hw.1]; exact h
  have hloop := Scene.removeOutsideLoop_eq_skipFilter
    (Scene.wait_for_objects_to_rest D sc).object_uids.length 0
    (Scene.wait_for_objects_to_rest D sc) h2 (by omega)
  have hfields := Scene.removeOutsideLoop_world_fields
    (Scene.wait_for_objects_to_rest D sc).object_uids.length 0
    (Scene.wait_for_objects_to_rest D sc)
  have hmain : (Scene.remove_outside_objects D sc).object_uids
      = skipFilter
          (fun uid => Scene.outsideTest sc.origin.2 sc.size
            ((Scene.wait_for_objects_to_rest D sc).world.pos uid))
          sc.object_uids := by
    show (Scene.removeOutsideLoop
        (Scene.wait_for_objects_to_rest D sc).object_uids.length 0
        (Scene.wait_for_objects_to_rest D sc)).object_uids = _
    rw [hloop, hw.1]
    rw [hw.2.1, hw.2.2.1]
    simp only [List.take_zero, List.drop_zero, List.nil_append]
  refine ⟨?_, hmain, ?_⟩
  · show (Scene.removeOutsideLoop
        (Scene.wait_for_objects_to_rest D sc).object_uids.length 0
        (Scene.wait_for_objects_to_rest D sc)).world.stepCount = _
    rw [hfields.1, hw.2.2.2, ScnWorld.iterate_step_stepCount]
  · intro uid hmem hnot
    rw [hmain] at hnot
    exact skipFilter_sound _ sc.object_uids uid hmem hnot

/-- Closed witness for C5 (amended): on the concrete frozen three-object
scene the sweep advances the step counter by 60. -/
theorem claim_C5_remove_outside_amended_witness :
    (Scene.remove_outside_objects DFreeze scC5).world.stepCount
      = scC5.world.stepCount + 60 :=
  (claim_C5_remove_outside_amended DFreeze scC5 (by decide)).1

end ClaimC5

theorem DFreeze_iterate_pos :
    ∀ (n : ℕ) (w : ScnWorld Unit),
    ((ScnWorld.step DFreeze)^[n] w).pos = w.pos := by
  intro n
  induction n with
  | zero => intro w; rfl
  | succ n ih =>
    intro w
    rw [Function.iterate_succ_apply']
    show ((ScnWorld.step DFreeze)^[n] w).pos = w.pos
    exact ih w

/-- C5 counterexample: on a frozen three-object scene with origin 0 and
footprint size 0.3, where objects 0 and 1 sit horizontally outside the
footprint and object 2 is horizontally inside (but at z = 1), the code
keeps object 1 (horizontally outside, skipped because its predecessor in
the list was removed) and removes object 2 (horizontally inside, removed
for its z coordinate): both directions of the claim fail at this input. -/
theorem claim_C5_horizontal_counterexample :
    (Scene.remove_outside_objects DFreeze scC5).object_uids = [1] ∧
    Scene.specHorizontalOutside scC5.origin.2 scC5.size (scC5.world.pos 1)
      = true ∧
    Scene.specHorizontalOutside scC5.origin.2 scC5.size (scC5.world.pos 2)
      = false := by
  refine ⟨?_, ?_, ?_⟩
  · have hw := Scene.wait_fields DFreeze scC5
    have h2 : (Scene.wait_for_objects_to_rest DFreeze scC5).object_uids.Nodup := by
      rw [hw.1]; decide
    have hloop := Scene.removeOutsideLoop_eq_skipFilter
      (Scene.wait_for_objects_to_rest DFreeze scC5).object_uids.length 0
      (Scene.wait_for_objects_to_rest DFreeze scC5) h2 (by omega)
    show (Scene.removeOutsideLoop
        (Scene.wait_for_objects_to_rest DFreeze scC5).object_uids.length 0
        (Scene.wait_for_objects_to_rest DFreeze scC5)).object_uids = [1]
    rw [hloop, hw.1, hw.2.1, hw.2.2.1]
    have hpos : (Scene.wait_for_objects_to_rest DFreeze scC5).world.pos
        = scC5.world.pos := by
      rw [hw.2.2.2]; exact DFreeze_iterate_pos 60 scC5.world
    simp only [hpos, List.take_zero, List.drop_zero, List.nil_append]
    norm_num [skipFilter, Scene.outsideTest, V3.sub, scC5]
  · norm_num [Scene.specHorizontalOutside, V3.sub, scC5]
  · norm_num [Scene.specHorizontalOutside, V3.sub, scC5]

section ClaimC6

variable {Rot : Type}

theorem PackedScene.attemptYaw_succ (pi2 : ℚ) (r : Rng) (k : ℕ) :
    PackedScene.attemptYaw pi2 r (k + 1)
      = PackedScene.attemptYaw pi2 (r.advanceBy 2) k := by
  have h : 2 * (k + 1) = 2 + 2 * k := by ring
  simp only [PackedScene.attemptYaw, Rng.advanceBy_advanceBy, h]

theorem PackedScene.attemptOffsets_succ (r : Rng) (k : ℕ) :
    PackedScene.attemptOffsets r (k + 1)
      = PackedScene.attemptOffsets (r.advanceBy 2) k := by
  have h : 2 * (k + 1) = 2 + 2 * k := by ring
  simp only [PackedScene.attemptOffsets, Rng.advanceBy_advanceBy, h]

theorem PackedScene.attemptWorld_succ (D : SceneDyn Rot) (RO : RotOps Rot)
    (pi2 : ℚ) (saved : SceneSt Rot) (uid : ℕ) (z_offset : ℚ) (r : Rng) (k : ℕ) :
    PackedScene.attemptWorld D RO pi2 saved uid z_offset r (k + 1)
      = PackedScene.attemptWorld D RO pi2 saved uid z_offset (r.advanceBy 2) k := by
  simp only [PackedScene.attemptWorld, PackedScene.attemptYaw_succ,
    PackedScene.attemptOffsets_succ]

theorem PackedScene.attemptHasContact_succ (D : SceneDyn Rot) (RO : RotOps Rot)
    (pi2 : ℚ) (saved : SceneSt Rot) (uid : ℕ) (z_offset : ℚ) (r : Rng) (k : ℕ) :
    PackedScene.attemptHasContact D RO pi2 saved uid z_offset r (k + 1)
      = PackedScene.attemptHasContact D RO pi2 saved uid z_offset (r.advanceBy 2) k := by
  simp only [PackedScene.attemptHasContact, PackedScene.attemptWorld_succ]

theorem PackedScene.attemptLoop_succ (D : SceneDyn Rot) (RO : RotOps Rot)
    (pi2 : ℚ) (saved : SceneSt Rot) (uid : ℕ) (z_offset : ℚ) (fuel : ℕ)
    (r : Rng) :
    PackedScene.attemptLoop D RO pi2 saved uid z_offset (fuel + 1) r
      = (if PackedScene.attemptHasContact D RO pi2 saved uid z_offset r 0 then
          PackedScene.attemptLoop D RO pi2 saved uid z_offset fuel
            (r.advanceBy 2)
        else
          ({ saved with
              world := PackedScene.attemptWorld D RO pi2 saved uid z_offset r 0 },
           r.advanceBy 2)) := by
  simp only [PackedScene.attemptLoop, PackedScene.attemptHasContact,
    PackedScene.attemptWorld, PackedScene.attemptYaw, PackedScene.attemptOffsets,
    Nat.mul_zero, Rng.advanceBy_zero, Rng.uniform1_snd, Rng.uniform2_snd,
    Rng.advance_advance]

theorem PackedScene.attemptLoop_eq_of_first_free (D : SceneDyn Rot)
    (RO : RotOps Rot) (pi2 : ℚ) (saved : SceneSt Rot) (uid : ℕ)
    (z_offset : ℚ) :
    ∀ (k fuel : ℕ) (r : Rng), k < fuel →
    PackedScene.attemptHasContact D RO pi2 saved uid z_offset r k = false →
    (∀ j < k, PackedScene.attemptHasContact D RO pi2 saved uid z_offset r j
      = true) →
    PackedScene.attemptLoop D RO pi2 saved uid z_offset fuel r
      = ({ saved with
            world := PackedScene.attemptWorld D RO pi2 saved uid z_offset r k },
         r.advanceBy (2 * (k + 1))) := by
  intro k
  induction k with
  | zero =>
    intro fuel r hkf hfree hpre
    obtain ⟨m, rfl⟩ : ∃ m, fuel = m + 1 := ⟨fuel - 1, by omega⟩
    rw [PackedScene.attemptLoop_succ, if_neg (by rw [hfree]; exact Bool.false_ne_true)]
  | succ k ih =>
    intro fuel r hkf hfree hpre
    obtain ⟨m, rfl⟩ : ∃ m, fuel = m + 1 := ⟨fuel - 1, by omega⟩
    rw [PackedScene.attemptLoop_succ, if_pos (hpre 0 (Nat.succ_pos k))]
    have hfree2 : PackedScene.attemptHasContact D RO pi2 saved uid z_offset
        (r.advanceBy 2) k = false := by
      rwa [PackedScene.attemptHasContact_succ] at hfree
    have hpre2 : ∀ j < k, PackedScene.attemptHasContact D RO pi2 saved uid
        z_offset (r.advanceBy 2) j = true := by
      intro j hj
      have := hpre (j + 1) (Nat.succ_lt_succ hj)
      rwa [PackedScene.attemptHasContact_succ] at this
    rw [ih m (r.advanceBy 2) (by omega) hfree2 hpre2,
      ← PackedScene.attemptWorld_succ, Rng.advanceBy_advanceBy]
    have h : 2 + 2 * (k + 1) = 2 * (k + 1 + 1) := by ring
    rw [h]

theorem PackedScene.attemptLoop_eq_of_all_contact (D : SceneDyn Rot)
    (RO : RotOps Rot) (pi2 : ℚ) (saved : SceneSt Rot) (uid : ℕ)
    (z_offset : ℚ) :
    ∀ (fuel : ℕ) (r : Rng),
    (∀ k < fuel, PackedScene.attemptHasContact D RO pi2 saved uid z_offset r k
      = true) →
    PackedScene.attemptLoop D RO pi2 saved uid z_offset fuel r
      = (Scene.remove_object saved uid, r.advanceBy (2 * fuel)) := by
  intro fuel
  induction fuel with
  | zero =>
    intro r h
    rw [Nat.mul_zero, Rng.advanceBy_zero]
    rfl
  | succ fuel ih =>
    intro r h
    rw [PackedScene.attemptLoop_succ, if_pos (h 0 (Nat.succ_pos fuel))]
    have h2 : ∀ k < fuel, PackedScene.attemptHasContact D RO pi2 saved uid
        z_offset (r.advanceBy 2) k = true := by
      intro k hk
      have := h (k + 1) (Nat.succ_lt_succ hk)
      rwa [PackedScene.attemptHasContact_succ] at this
    rw [ih (r.advanceBy 2) h2, Rng.advanceBy_advanceBy]
    have harith : 2 + 2 * fuel = 2 * (fuel + 1) := by ring
    rw [harith]

end ClaimC6

section ClaimC6Main

variable {Rot : Type}

/-- C6: per-object placement in the Packed scene generator. With `saved` the
scene right after the object is loaded (and the engine snapshot taken) and
`z_offset` its AABB half-height plus the 0.002 clearance, the generator
tries at most `max_attempts` attempts, each drawing a yaw (rng call `2k`)
and an xy offset pair (rng call `2k+1`, offsets within `[0.2, 0.8]`, scaled
by the footprint inside `attemptWorld`), placing the object, stepping once
and checking contacts: the first contact-free attempt `k` commits that
placement and stops (conjunct one: exactly `2(k+1)` rng calls consumed,
the handle still recorded); if every attempt has contact, the state is
rolled back to the snapshot and the object is removed without an error
(conjunct two: under the scene invariant the handle list returns to exactly
its pre-object value). -/
theorem claim_C6_packed_placement (D : SceneDyn Rot) (RO : RotOps Rot)
    (pi2 : ℚ) (max_attempts : ℕ) (sc : SceneSt Rot) (r : Rng)
    (saved : SceneSt Rot) (uid : ℕ) (z_offset : ℚ)
    (hsaved : Scene.add_object sc RO.one ⟨0, 0, 0⟩ = (saved, uid))
    (hz : z_offset = 1 / 2 * ((D.aabb saved.world uid).2.z
        - (D.aabb saved.world uid).1.z) + 2 / 1000) :
    (∀ k < max_attempts,
      PackedScene.attemptHasContact D RO pi2 saved uid z_offset r k = false →
      (∀ j < k, PackedScene.attemptHasContact D RO pi2 saved uid z_offset r j
        = true) →
      PackedScene.placeOneObject D RO pi2 max_attempts sc r
        = ({ saved with
              world := PackedScene.attemptWorld D RO pi2 saved uid z_offset r k },
           r.advanceBy (2 * (k + 1)))
      ∧ uid ∈ ({ saved with
          world := PackedScene.attemptWorld D RO pi2 saved uid z_offset r k } :
            SceneSt Rot).object_uids) ∧
    ((∀ k < max_attempts,
        PackedScene.attemptHasContact D RO pi2 saved uid z_offset r k = true) →
      PackedScene.placeOneObject D RO pi2 max_attempts sc r
        = (Scene.remove_object saved uid, r.advanceBy (2 * max_attempts))
      ∧ (SceneInv sc →
          (Scene.remove_object saved uid).object_uids = sc.object_uids)) ∧
    (r.unitInterval → ∀ k,
      (2 / 10 ≤ (PackedScene.attemptOffsets r k).1
        ∧ (PackedScene.attemptOffsets r k).1 ≤ 8 / 10)
      ∧ (2 / 10 ≤ (PackedScene.attemptOffsets r k).2
        ∧ (PackedScene.attemptOffsets r k).2 ≤ 8 / 10)) := by
  have hplace : PackedScene.placeOneObject D RO pi2 max_attempts sc r
      = PackedScene.attemptLoop D RO pi2 saved uid z_offset max_attempts r := by
    simp only [PackedScene.placeOneObject, hsaved, hz]
  have huid_mem : uid ∈ saved.object_uids := by
    have h1 : (Scene.add_object sc RO.one ⟨0, 0, 0⟩).1 = saved := by
      rw [hsaved]
    have h2 : (Scene.add_object sc RO.one ⟨0, 0, 0⟩).2 = uid := by
      rw [hsaved]
    rw [← h1, ← h2]
    simp only [Scene.add_object]
    exact List.mem_append.2 (Or.inr (List.mem_singleton.2 rfl))
  refine ⟨?_, ?_, ?_⟩
  · intro k hk hfree hpre
    rw [hplace, PackedScene.attemptLoop_eq_of_first_free D RO pi2 saved uid
      z_offset k max_attempts r hk hfree hpre]
    exact ⟨rfl, huid_mem⟩
  · intro hall
    rw [hplace, PackedScene.attemptLoop_eq_of_all_contact D RO pi2 saved uid
      z_offset max_attempts r hall]
    refine ⟨rfl, fun hinv => ?_⟩
    have h1 : (Scene.add_object sc RO.one ⟨0, 0, 0⟩).1 = saved := by
      rw [hsaved]
    have h2 : (Scene.add_object sc RO.one ⟨0, 0, 0⟩).2 = uid := by
      rw [hsaved]
    have hobj : saved.object_uids = sc.object_uids ++ [uid] := by
      rw [← h1, ← h2]
      rfl
    have hfresh : uid ∉ sc.object_uids := by
      rw [← h2]
      intro hmem
      exact absurd (hinv.2.2 _ hmem) (lt_irrefl _)
    show saved.object_uids.erase uid = sc.object_uids
    rw [hobj, List.erase_append_right _ hfresh, List.erase_cons_head,
      List.append_nil]
  · intro hu k
    have u1 := hu (r.pos + 2 * k + 1) 0
    have u2 := hu (r.pos + 2 * k + 1) 1
    simp only [PackedScene.attemptOffsets, Rng.uniform2, Rng.advanceBy,
      Rng.advance]
    exact ⟨⟨unif_mem_lower _ _ _ u1.1 u1.2 (by norm_num),
           unif_mem_upper _ _ _ u1.1 u1.2 (by norm_num)⟩,
          unif_mem_lower _ _ _ u2.1 u2.2 (by norm_num),
          unif_mem_upper _ _ _ u2.1 u2.2 (by norm_num)⟩

/-- Closed witness for C6: with always-in-contact dynamics all three
attempts fail and the object is removed, leaving the empty scene list
unchanged; exactly six rng calls are consumed. -/
theorem claim_C6_packed_placement_witness :
    PackedScene.placeOneObject DContact ROUnit 7 3 scEmpty RZero
      = (Scene.remove_object (Scene.add_object scEmpty ROUnit.one ⟨0, 0, 0⟩).1
          (Scene.add_object scEmpty ROUnit.one ⟨0, 0, 0⟩).2,
         RZero.advanceBy (2 * 3)) :=
  ((claim_C6_packed_placement DContact ROUnit 7 3 scEmpty RZero
      (Scene.add_object scEmpty ROUnit.one ⟨0, 0, 0⟩).1
      (Scene.add_object scEmpty ROUnit.one ⟨0, 0, 0⟩).2 _ rfl rfl).2.1
    (fun k _ => rfl)).1

end ClaimC6Main
